import Mathlib

/-!
# ldns-dane: identity matching and association logic

A shallow embedding of the matching and orchestration functions of
`examples/ldns-dane.c`, with theorems about them.

Conventions of the embedding.

* A C `(uint8_t len, const char* p)` pair is a `List Char` whose length is `len`; the
  pointer increments `w += 1; iw -= 1` become "drop the head".  All lengths stay below
  256 in the program (a label has at most 63 octets), so no `uint8_t` arithmetic wraps:
  every decrement in the source is guarded by `> 0`.
* A function that can end the process (`exit(EXIT_FAILURE)` through `LDNS_ERR`,
  `ssl_err`) returns `Option`: `none` is the fatal exit.
* Memory allocation is assumed to succeed.  Where the source reads or frees memory it has
  already freed, the definition concerned says so and says what the model does there.
* The collaborators of `main` (the resolver, the TLS library, the ldns DANE functions)
  answer through a `World` record.  A run of `main` is the list of its observable events
  with the exit status of the process; `main` is modelled from the end of the option loop.
* `long` has 64 bits and `int` has 32 bits (the LP64 data model).
-/

namespace LdnsDane

/-! ## Label Matcher: `dane_wildcard_label_cmp` -/

/-- A label: the octets after the length octet. -/
abbrev Label := List Char

/-- The loop `while (il > 0 && iw > 0 && *w != '*' && *w == *l)` that advances both
pointers; returns the remaining pattern and the remaining subject. -/
def skip_literal : Label → Label → Label × Label
  | c :: w, d :: l => if c ≠ '*' ∧ c = d then skip_literal w l else (c :: w, d :: l)
  | w, l => (w, l)

/-- The loop `while (il > 0)` under the wildcard.  `w1` is `w[1]`, `rec` is the recursive
call `dane_wildcard_label_cmp(iw - 1, w + 1, ·, ·)`.  `some true`: the function returned
true from inside the loop; `some false`: the loop ran until `il == 0`; `none`: the
recursive call ran out of fuel. -/
def star_loop (rec : Label → Option Bool) (w1 : Option Char) : Label → Option Bool
  | [] => some false
  | d :: l =>
    if w1 = some d then
      match rec (d :: l) with
      | none => none
      | some true => some true
      | some false => star_loop rec w1 l
    else star_loop rec w1 l

/-- The `do { ... } while (iw > 0 && *w == '*' && (il > 0 || iw == 1));` loop followed by
`return iw == 0 && il == 0;`.  The first argument bounds the number of iterations. -/
def do_while (rec : Label → Label → Option Bool) : Nat → Label → Label → Option Bool
  | 0, _, _ => none
  | k + 1, w, l =>
    -- `if (*w == '*') { ... }`: a returned value, or the subject left for the code below
    let star : Option (Bool ⊕ Label) :=
      if w.head? = some '*' then
        if w.length = 1 then some (Sum.inl true)
        else
          match star_loop (rec w.tail) w.tail.head? l with
          | none => none
          | some true => some (Sum.inl true)
          | some false => some (Sum.inr [])
      else some (Sum.inr l)
    match star with
    | none => none
    | some (Sum.inl b) => some b
    | some (Sum.inr l1) =>
      let p := skip_literal w l1
      if p.1.length > 0 ∧ p.1.head? = some '*' ∧ (p.2.length > 0 ∨ p.1.length = 1) then
        do_while rec k p.1 p.2
      else some (p.1.length == 0 && p.2.length == 0)

/-- The function `dane_wildcard_label_cmp(iw, w, il, l)` with a fuel argument that bounds
both the recursion depth and the iterations of the do-while loop; `none` means the fuel
ran out. -/
def dane_wildcard_label_cmp_fuel : Nat → Label → Label → Option Bool
  | 0, _, _ => none
  | n + 1, w, l =>
    if w.length = 0 then some (l.length == 0)
    else do_while (dane_wildcard_label_cmp_fuel n) n w l

/-- The function `dane_wildcard_label_cmp`, run with fuel `iw + 2`, which always suffices
(`dane_wildcard_label_cmp_fuel_total`). -/
def dane_wildcard_label_cmp (w l : Label) : Bool :=
  (dane_wildcard_label_cmp_fuel (w.length + 2) w l).getD false

/-- Does some non-empty tail `s` of `l` satisfy `p s`? (tails taken left to right). -/
def any_tail (p : Label → Bool) : Label → Bool
  | [] => false
  | d :: l => p (d :: l) || any_tail p l

/-- A closed recursive description of what `dane_wildcard_label_cmp` computes, used to
reason about it: a literal octet must equal the subject octet, a final `*` accepts any
remainder, and a `*` followed by `c` accepts when some tail of the subject starts with `c`
and is accepted by the rest of the pattern. -/
def label_glob : Label → Label → Bool
  | [], l => l.isEmpty
  | c :: w, l =>
    if c = '*' then
      match w with
      | [] => true
      | c1 :: _ => any_tail (fun s => s.head? = some c1 && label_glob w s) l
    else
      match l with
      | [] => false
      | d :: l1 => c = d && label_glob w l1

/-! ## Name Matcher: `dane_name_matches_server_name` -/

/-- Modelled from the spec: the ldns dname type is not among the sources; the spec gives a
DomainName as an "ordered sequence of Labels".  The list holds the labels left to right;
the terminal root label (length 0) is not stored. -/
abbrev DomainName := List Label

/-- Modelled from the spec: `ldns_dname_label_count` is missing from the sources; it is
the number of labels of the name, the root label not counted.  The source keeps it in a
`uint8_t`; a name has at most 255 octets, so the count never wraps. -/
def ldns_dname_label_count (d : DomainName) : Nat := d.length

/-- Modelled from the spec: `ldns_dname_label` is missing from the sources; it hands back
the label at position `i`, or NULL (`none`) when there is none. -/
def ldns_dname_label (d : DomainName) (i : Nat) : Option Label := d.get? i

/-- Modelled from the spec: `ldns_dname2canonical` is missing from the sources; the spec
says canonicalisation is a case-fold "only over ASCII" that "must not alter label
boundaries". -/
def ldns_dname2canonical (d : DomainName) : DomainName :=
  d.map (fun lab => lab.map Char.toLower)

/-- Cuts a string at every `.`; the pieces between the dots, in order. -/
def split_dots : List Char → List Label
  | [] => [[]]
  | c :: s =>
    if c = '.' then [] :: split_dots s
    else
      match split_dots s with
      | [] => [[c]]
      | lab :: rest => (c :: lab) :: rest

/-- The parser on the characters of the string, see `ldns_dname_new_frm_str`. -/
def dname_of_chars (cs : List Char) : Option DomainName :=
  if cs = [] then none
  else if cs = ['.'] then some []
  else
    let pieces := split_dots cs
    let labels := if pieces.getLast? = some [] then pieces.dropLast else pieces
    if labels.all (fun lab => decide (0 < lab.length ∧ lab.length ≤ 63)) then some labels
    else none

/-- Modelled from the spec: `ldns_dname_new_frm_str` is missing from the sources; the spec
says it "parses `subject_name_string` into a DomainName; fails with a ParseError if
malformed".  Here a string is malformed when it is empty, when a label between two dots
is empty (a label of length 0 is the root label and can only close the name, as one final
dot), or when a label has more than 63 octets.  `none` is the NULL result. -/
def ldns_dname_new_frm_str (name_str : String) : Option DomainName :=
  dname_of_chars name_str.toList

/-- The function `dane_label_matches_label`: the first octet of each label is its
length, the octets after it are compared. -/
def dane_label_matches_label (w l : Label) : Bool :=
  dane_wildcard_label_cmp w l

/-- The loop `for (i = 0; i < nn; i++)` of `dane_name_matches_server_name`, started at
index `i` with `k = nn - i` iterations to go. -/
def labels_loop (name server_name : DomainName) : Nat → Nat → Bool
  | 0, _ => true
  | k + 1, i =>
    match ldns_dname_label name i with
    | none => false
    | some ln =>
      match ldns_dname_label server_name i with
      | none => false
      | some ls =>
        if ! dane_label_matches_label ln ls then false
        else labels_loop name server_name k (i + 1)

/-- The function `dane_name_matches_server_name`.  `none`: the name string does not parse
and `LDNS_ERR(LDNS_STATUS_ERR, ...)` ends the process. -/
def dane_name_matches_server_name (name_str : String) (server_name : DomainName) :
    Option Bool :=
  match ldns_dname_new_frm_str name_str with
  | none => none
  | some name =>
    let nn := ldns_dname_label_count name
    let ns := ldns_dname_label_count server_name
    if nn ≠ ns then some false
    else
      let name := ldns_dname2canonical name
      some (labels_loop name server_name nn 0)

/-! ## Identity Verifier: `dane_verify_server_name` -/

/-- The OpenSSL constant `GEN_DNS`. -/
def GEN_DNS : Nat := 2

/-- The OpenSSL constant `GEN_IPADD`. -/
def GEN_IPADD : Nat := 7

/-- The OpenSSL constant `NID_commonName`. -/
def NID_commonName : Nat := 13

/-- An entry of the subjectAltName extension: its `type` and, for the `dNSName` member,
what `ASN1_STRING_to_UTF8` produces from it (`none`: the conversion fails and the buffer
stays NULL). -/
structure GENERAL_NAME where
  type : Nat
  dNSName : Option String
  deriving DecidableEq, Repr

/-- An attribute of the subject name: its NID and what `ASN1_STRING_to_UTF8` produces
from its data (`none`: the conversion fails). -/
structure X509_NAME_ENTRY where
  nid : Nat
  data : Option String
  deriving DecidableEq, Repr

/-- The parts of a certificate that the identity check reads: the result of
`X509_get_ext_d2i(cert, NID_subject_alt_name, 0, 0)` (`none`: no such extension) and the
result of `X509_get_subject_name(cert)` (`none`: NULL). -/
structure X509 where
  subject_alt_name : Option (List GENERAL_NAME)
  subject_name : Option (List X509_NAME_ENTRY)
  deriving DecidableEq, Repr

/-- The text that a `char*` cast of a converted buffer denotes: `ASN1_STRING_to_UTF8`
returns the length of the buffer, the callers discard it (`(void)`) and hand the buffer
on as a C string, which ends before the first NUL octet. -/
def c_string (buffer : String) : String :=
  String.mk (buffer.toList.takeWhile (fun c => c ≠ Char.ofNat 0))

/-- The loop `for (i = 0; i < n; i++)` of
`dane_X509_any_subject_alt_name_matches_server_name` over the entries still to visit.
`stale` says that `subject_alt_name_str` holds the buffer of an earlier entry, freed by
`OPENSSL_free` and not reset to NULL.  A conversion that fails leaves the pointer as it
is: with a NULL pointer the entry is passed over; with a stale pointer the source reads
the freed buffer and frees it a second time, which is undefined, and the model ends the
run there (`none`). -/
def san_loop (server_name : DomainName) : Bool → List GENERAL_NAME → Option Bool
  | _, [] => some false
  | stale, name :: rest =>
    if name.type = GEN_DNS then
      match name.dNSName with
      | some subject_alt_name_str =>
        match dane_name_matches_server_name (c_string subject_alt_name_str)
            server_name with
        | none => none
        | some true => some true
        | some false => san_loop server_name true rest
      | none => if stale = true then none else san_loop server_name false rest
    else san_loop server_name stale rest

/-- The function `dane_X509_any_subject_alt_name_matches_server_name`. -/
def dane_X509_any_subject_alt_name_matches_server_name (cert : X509)
    (server_name : DomainName) : Option Bool :=
  match cert.subject_alt_name with
  | none => some false
  | some names => san_loop server_name false names

/-- The chain `X509_NAME_get_index_by_NID(subject_name, NID_commonName, -1)`,
`X509_NAME_get_entry`, `X509_NAME_ENTRY_get_data`, `ASN1_STRING_to_UTF8`: the text of the
first commonName attribute, `none` when there is no such attribute or no text. -/
def common_name_str (subject_name : List X509_NAME_ENTRY) : Option String :=
  match subject_name.find? (fun e => e.nid == NID_commonName) with
  | none => none
  | some entry => entry.data

/-- The function `dane_X509_subject_name_matches_server_name`.  The converted common name
is handed on as a C string.  `none`: the process ends, through `ssl_err` when the
certificate has no subject name or through `LDNS_ERR` when the common name does not
parse. -/
def dane_X509_subject_name_matches_server_name (cert : X509) (server_name : DomainName) :
    Option Bool :=
  match cert.subject_name with
  | none => none
  | some subject_name =>
    match common_name_str subject_name with
    | some subject_name_str =>
      dane_name_matches_server_name (c_string subject_name_str) server_name
    | none => some false

/-- The function `dane_verify_server_name`: the server name is cloned and canonicalised,
then `any_subject_alt_name || subject_name`, the right operand evaluated only when the
left one is false. -/
def dane_verify_server_name (cert : X509) (server_name : DomainName) : Option Bool :=
  let server_name_lc := ldns_dname2canonical server_name
  match dane_X509_any_subject_alt_name_matches_server_name cert server_name_lc with
  | none => none
  | some true => some true
  | some false => dane_X509_subject_name_matches_server_name cert server_name_lc

/-! ## Usage Policy Transformer: `dane_no_pkix_transform` -/

/-- The constant `LDNS_RR_TYPE_TLSA`. -/
def LDNS_RR_TYPE_TLSA : Nat := 52

/-- The constant `LDNS_TLSA_USAGE_CA_CONSTRAINT`. -/
def LDNS_TLSA_USAGE_CA_CONSTRAINT : Nat := 0

/-- The constant `LDNS_TLSA_USAGE_SERVICE_CERTIFICATE_CONSTRAINT`. -/
def LDNS_TLSA_USAGE_SERVICE_CERTIFICATE_CONSTRAINT : Nat := 1

/-- The constant `LDNS_TLSA_USAGE_TRUST_ANCHOR_ASSERTION`. -/
def LDNS_TLSA_USAGE_TRUST_ANCHOR_ASSERTION : Nat := 2

/-- The constant `LDNS_TLSA_USAGE_DOMAIN_ISSUED_CERTIFICATE`. -/
def LDNS_TLSA_USAGE_DOMAIN_ISSUED_CERTIFICATE : Nat := 3

/-- Modelled from the spec: the ldns record type is not among the sources; the spec gives
an AssociationRecord as "owner name, CertificateUsage, Selector, MatchingType, opaque
association data".  `rr_type` is what `ldns_rr_get_type` reads; `usage` is rdata field 0,
one octet, read by `ldns_rdf2native_int8`. -/
structure ldns_rr where
  owner : DomainName
  rr_type : Nat
  usage : Nat
  selector : Nat
  matching_type : Nat
  data : List Nat
  deriving DecidableEq, Repr

/-- The `switch` on rdata field 0 of the clone in `dane_no_pkix_transform`. -/
def no_pkix_usage (new_rr : ldns_rr) : ldns_rr :=
  if new_rr.usage = LDNS_TLSA_USAGE_CA_CONSTRAINT then
    { new_rr with usage := LDNS_TLSA_USAGE_TRUST_ANCHOR_ASSERTION }
  else if new_rr.usage = LDNS_TLSA_USAGE_SERVICE_CERTIFICATE_CONSTRAINT then
    { new_rr with usage := LDNS_TLSA_USAGE_DOMAIN_ISSUED_CERTIFICATE }
  else new_rr

/-- The function `dane_no_pkix_transform`: the loop over the list, which pushes a
rewritten clone of every record of type TLSA onto the result and passes over the rest. -/
def dane_no_pkix_transform : List ldns_rr → List ldns_rr
  | [] => []
  | rr :: rest =>
    if rr.rr_type = LDNS_RR_TYPE_TLSA then
      no_pkix_usage rr :: dane_no_pkix_transform rest
    else dane_no_pkix_transform rest

/-! ## Association Verifier: `dane_verify` -/

/-- The type `ldns_status`, an enumerator of `ldns/error.h` by its number. -/
abbrev ldns_status := Nat

/-- The first enumerator of `enum ldns_enum_status`. -/
def LDNS_STATUS_OK : ldns_status := 0

/-- What `dane_verify` prints after the address: "dane-validated successfully", "did not
dane-validate, because: the certificate name did not match the server name", or "did not
dane-validate, because:" followed by the text of a status. -/
inductive verify_report where
  | validated
  | name_mismatch
  | because (s : ldns_status)
  deriving DecidableEq, Repr

/-- The function `dane_verify`; `s` is the status that the call
`ldns_dane_verify(tlsas, cert, extra_certs, validate_store)` yields.  The result is the
returned flag with the printed report; `none`: the identity check ended the process. -/
def dane_verify (s : ldns_status) (verify_server_name : Bool) (cert : X509)
    (name : DomainName) : Option (Bool × verify_report) :=
  if s = LDNS_STATUS_OK then
    if verify_server_name then
      match dane_verify_server_name cert name with
      | none => none
      | some false => some (false, verify_report.name_mismatch)
      | some true => some (true, verify_report.validated)
    else some (true, verify_report.validated)
  else some (false, verify_report.because s)


/-! ## Predicates used to state the theorems -/

/-- A converted text is well formed when it consists of ASCII characters other than NUL
(each character is then one octet of the buffer, and the C string is the whole text) and
parses as a domain name. -/
def name_text_parses (str : String) : Bool :=
  str.toList.all (fun c => decide (0 < c.toNat ∧ c.toNat < 128))
    && (ldns_dname_new_frm_str str).isSome

/-- A subjectAltName entry is usable when it is not of type DNS, or it has a text that is
well formed. -/
def general_name_parses (g : GENERAL_NAME) : Bool :=
  if g.type = GEN_DNS then
    match g.dNSName with
    | some str => name_text_parses str
    | none => false
  else true

/-- Every name that the identity check can read from the certificate is well formed: each
DNS entry of the subjectAltName extension has a text of ASCII characters other than NUL
that parses, and so has the common name if there is one; the certificate has a subject
name. -/
def cert_names_parse (cert : X509) : Bool :=
  (match cert.subject_alt_name with
    | none => true
    | some names => names.all general_name_parses)
  &&
  (match cert.subject_name with
    | none => false
    | some subject_name =>
      match common_name_str subject_name with
      | none => true
      | some str => name_text_parses str)

/-- A certificate with the subjectAltName entries `IP` (no text) and `DNS:example.org`
and the common name `example.org`, used as a concrete input. -/
def example_org_cert : X509 :=
  { subject_alt_name := some [{ type := GEN_IPADD, dNSName := none },
                              { type := GEN_DNS, dNSName := some "example.org" }],
    subject_name := some [{ nid := NID_commonName, data := some "example.org" }] }

/-- Two TLSA records of one owner, with usages 0 and 3, used as a concrete input. -/
def example_tlsas : List ldns_rr :=
  [ { owner := ["_443".toList, "_tcp".toList, "example".toList, "org".toList],
      rr_type := LDNS_RR_TYPE_TLSA, usage := 0, selector := 1, matching_type := 1,
      data := [171, 205] },
    { owner := ["_443".toList, "_tcp".toList, "example".toList, "org".toList],
      rr_type := LDNS_RR_TYPE_TLSA, usage := 3, selector := 0, matching_type := 2,
      data := [18, 52] } ]

/-! ## Argument check: `usage_within_range` -/

/-- The value `EXIT_SUCCESS`. -/
def EXIT_SUCCESS : Nat := 0

/-- The value `EXIT_FAILURE`. -/
def EXIT_FAILURE : Nat := 1

/-- The C library value `ERANGE`. -/
def ERANGE : Nat := 34

/-- The largest `long`, for a `long` of 64 bits (the LP64 data model). -/
def LONG_MAX : Int := 9223372036854775807

/-- The smallest `long`, for a `long` of 64 bits (the LP64 data model). -/
def LONG_MIN : Int := -9223372036854775808

/-- The C library predicate `isspace` in the C locale. -/
def isspace (c : Char) : Bool :=
  c = ' ' || c = '\t' || c = '\n' || c = '\x0b' || c = '\x0c' || c = '\r'

/-- The number written by a run of decimal digits, most significant first, added to `acc`
shifted left. -/
def digits_value (acc : Nat) : List Char → Nat
  | [] => acc
  | c :: cs => digits_value (acc * 10 + (c.toNat - '0'.toNat)) cs

/-- What a call `strtol(arg, &endptr, 10)` leaves: the returned `long`, whether
`endptr == arg`, the characters from `endptr` on, and `errno`. -/
structure strtol_result where
  value : Int
  endptr_is_arg : Bool
  rest : List Char
  errno : Nat
  deriving DecidableEq, Repr

/-- The C library function `strtol` with base 10: white space is skipped, one sign is
read, then the longest run of digits.  Without a digit nothing is converted: the value is
0 and `endptr` is `arg`.  A value outside the range of `long` yields `LONG_MAX` or
`LONG_MIN` and sets `errno` to `ERANGE`; otherwise `errno` is left as it was. -/
def strtol (arg : List Char) (errno : Nat) : strtol_result :=
  let s1 := arg.dropWhile isspace
  let negative := s1.head? = some '-'
  let s2 := if s1.head? = some '-' ∨ s1.head? = some '+' then s1.tail else s1
  let digits := s2.takeWhile Char.isDigit
  if digits = [] then
    { value := 0, endptr_is_arg := true, rest := arg, errno := errno }
  else
    let magnitude : Int := digits_value 0 digits
    let v : Int := if negative then - magnitude else magnitude
    if v > LONG_MAX then
      { value := LONG_MAX, endptr_is_arg := false, rest := s2.dropWhile Char.isDigit,
        errno := ERANGE }
    else if v < LONG_MIN then
      { value := LONG_MIN, endptr_is_arg := false, rest := s2.dropWhile Char.isDigit,
        errno := ERANGE }
    else
      { value := v, endptr_is_arg := false, rest := s2.dropWhile Char.isDigit,
        errno := errno }

/-- The conversion of a `long` to an `int` of 32 bits in `int val = strtol(...)`: the
value modulo 2^32, taken in the range of `int`. -/
def long_to_int (v : Int) : Int :=
  (v + 2147483648) % 4294967296 - 2147483648

/-- The function `usage_within_range(arg, max, name)`; `errno` is the value of `errno` at
the call.  `none`: the message is printed and the process ends with `EXIT_FAILURE`. -/
def usage_within_range (errno : Nat) (arg : List Char) (max : Int) : Option Int :=
  let r := strtol arg errno
  let val := long_to_int r.value
  if (val < 0 ∨ val > max)
      ∨ (r.errno ≠ 0 ∧ val = 0)
      ∨ r.endptr_is_arg = true
      ∨ r.rest ≠ [] then none
  else some val

/-! ## Status codes and fatal errors -/

/-- The enumerator `LDNS_STATUS_MEM_ERR` of `ldns/error.h`. -/
def LDNS_STATUS_MEM_ERR : ldns_status := 8

/-- The enumerator `LDNS_STATUS_SSL_ERR` of `ldns/error.h`. -/
def LDNS_STATUS_SSL_ERR : ldns_status := 10

/-- The enumerator `LDNS_STATUS_NETWORK_ERR` of `ldns/error.h`. -/
def LDNS_STATUS_NETWORK_ERR : ldns_status := 20

/-- The enumerator `LDNS_STATUS_DANE_INSECURE` of `ldns/error.h`. -/
def LDNS_STATUS_DANE_INSECURE : ldns_status := 89

/-- The enumerator `LDNS_STATUS_DANE_TLSA_DID_NOT_MATCH` of `ldns/error.h`. -/
def LDNS_STATUS_DANE_TLSA_DID_NOT_MATCH : ldns_status := 91

/-- The function `ssl_err`: prints and ends the process; the value is the exit status. -/
def ssl_err : Nat := EXIT_FAILURE

/-- The function `ldns_err(s, err)`: both branches print and end the process; the value is
the exit status. -/
def ldns_err (err : ldns_status) : Nat :=
  if err = LDNS_STATUS_SSL_ERR then ssl_err else EXIT_FAILURE

/-! ## TLSA lookup: `dane_query` -/

/-- The parts of an answer packet that `dane_query` reads: the answer section and the AD
bit. -/
structure ldns_pkt where
  answer : List ldns_rr
  ad : Bool
  deriving DecidableEq, Repr

/-- Modelled from the spec: `ldns_pkt_rr_list_by_type` is missing from the sources; it
gives the records of type `t` of the answer section, in order. -/
def ldns_pkt_rr_list_by_type (p : ldns_pkt) (t : Nat) : List ldns_rr :=
  p.answer.filter (fun rr => decide (rr.rr_type = t))

/-- Modelled from the spec: `ldns_rr_list_rr_count` is missing from the sources; the
number of records of a list, 0 for the NULL list. -/
def ldns_rr_list_rr_count (l : Option (List ldns_rr)) : Nat :=
  match l with
  | none => 0
  | some rrs => rrs.length

/-- The function `dane_query`.  `p` is what `ldns_resolver_query` answers (`none`: NULL),
`dnssec` is `ldns_resolver_dnssec(r)`.  The result is the status with the list left in
`*rrs` (`none`: NULL); a result `none` is the exit through `ldns_err` on a NULL packet. -/
def dane_query (p : Option ldns_pkt) (dnssec : Bool) (t : Nat) (insecure_is_ok : Bool) :
    Option (ldns_status × Option (List ldns_rr)) :=
  match p with
  | none => none
  | some p =>
    let rrs := some (ldns_pkt_rr_list_by_type p t)
    if ldns_rr_list_rr_count rrs > 0 ∧ dnssec = true ∧ ¬ p.ad = true
        ∧ ¬ insecure_is_ok = true then
      some (LDNS_STATUS_DANE_INSECURE, if ¬ insecure_is_ok = true then none else rrs)
    else some (LDNS_STATUS_OK, rrs)

/-! ## Association Builder: `dane_create` -/

/-- Modelled from the spec: `ldns_rr_list_contains_rr` is missing from the sources; the
spec says insertion is skipped "if an identical record already exists (structural dedup,
not pointer dedup)". -/
def ldns_rr_list_contains_rr (tlsas : List ldns_rr) (rr : ldns_rr) : Bool :=
  decide (rr ∈ tlsas)

/-- Modelled from the spec: `ldns_rr_list_push_rr` is missing from the sources; the record
is appended at the end of the list. -/
def ldns_rr_list_push_rr (tlsas : List ldns_rr) (rr : ldns_rr) : List ldns_rr :=
  tlsas ++ [rr]

/-- The last statement of `dane_create`:
`if (! ldns_rr_list_contains_rr(tlsas, tlsa_rr)) ldns_rr_list_push_rr(tlsas, tlsa_rr)`. -/
def tlsas_insert (tlsas : List ldns_rr) (tlsa_rr : ldns_rr) : List ldns_rr :=
  if ! ldns_rr_list_contains_rr tlsas tlsa_rr then ldns_rr_list_push_rr tlsas tlsa_rr
  else tlsas

/-- An address to connect to, in its text form. -/
abbrev Address := String

/-- The answers of the collaborators that `main` and the functions under it consult: the
resolver, the TLS library and the ldns DANE functions.  Each field is the result of the
call named in its comment. -/
structure World where
  /-- The value of `errno` when `usage_within_range` is called. -/
  errno : Nat
  /-- The call `ldns_dane_create_tlsa_owner(&tlsa_owner, name, port, transport)`. -/
  ldns_dane_create_tlsa_owner : DomainName → Int → ldns_status × DomainName
  /-- The call `dane_setup_resolver(&res, keys, dns_root, assume_dnssec_validity)`. -/
  dane_setup_resolver : ldns_status
  /-- The value `ldns_resolver_dnssec(res)` of the resolver that was set up. -/
  resolver_dnssec : Bool
  /-- The call `ldns_resolver_query` for the TLSA records of the owner name. -/
  tlsa_answer : Option ldns_pkt
  /-- The call `dane_lookup_addresses(res, name, ai_family)`; `none`: it ended the
  process. -/
  dane_lookup_addresses : Option (List Address)
  /-- Do the calls of the part "ssl load validation store" to `SSL_new` all succeed? -/
  ssl_setup_ok : Bool
  /-- The certificate `SSL_get_certificate(ssl)` and `ctx->extra_certs` when a
  certificate file was given. -/
  file_cert : Option (X509 × List X509)
  /-- The call `get_ssl_cert_chain(&cert, &extra_certs, ssl, address, port, transport)`. -/
  get_ssl_cert_chain : Address → ldns_status × X509 × List X509
  /-- The call `ldns_dane_verify(tlsas, cert, extra_certs, validate_store)`. -/
  ldns_dane_verify : Option (List ldns_rr) → X509 → List X509 → ldns_status
  /-- The call `ldns_dane_select_certificate(&selected_cert, cert, extra_certs,
  validate_store, certificate_usage, index)`. -/
  ldns_dane_select_certificate : X509 → List X509 → Nat → Int → ldns_status × X509
  /-- The call `ldns_dane_create_tlsa_rr(&tlsa_rr, certificate_usage, selector,
  matching_type, selected_cert)`. -/
  ldns_dane_create_tlsa_rr : Nat → Nat → Nat → X509 → ldns_status × ldns_rr

/-- The part of `dane_create` after the identity check: select the certificate, create the
record, set its owner and insert it if absent.  `none`: `LDNS_ERR` ended the process. -/
def dane_create_build (w : World) (tlsas : List ldns_rr) (tlsa_owner : DomainName)
    (certificate_usage : Nat) (index : Int) (selector matching_type : Nat)
    (cert : X509) (extra_certs : List X509) : Option (List ldns_rr) :=
  let sel := w.ldns_dane_select_certificate cert extra_certs certificate_usage index
  if sel.1 ≠ LDNS_STATUS_OK then none
  else
    let cr := w.ldns_dane_create_tlsa_rr certificate_usage selector matching_type sel.2
    if cr.1 ≠ LDNS_STATUS_OK then none
    else
      let tlsa_rr := { cr.2 with owner := tlsa_owner }
      some (tlsas_insert tlsas tlsa_rr)

/-- The function `dane_create`; the result is the list `tlsas` after the call.  `none`:
the process ended with `EXIT_FAILURE`, on a name that does not match, inside the identity
check, or through `LDNS_ERR`. -/
def dane_create (w : World) (tlsas : List ldns_rr) (tlsa_owner : DomainName)
    (certificate_usage : Nat) (index : Int) (selector matching_type : Nat)
    (cert : X509) (extra_certs : List X509)
    (verify_server_name : Bool) (name : DomainName) : Option (List ldns_rr) :=
  if verify_server_name then
    match dane_verify_server_name cert name with
    | none => none
    | some false => none
    | some true =>
      dane_create_build w tlsas tlsa_owner certificate_usage index selector matching_type
        cert extra_certs
  else
    dane_create_build w tlsas tlsa_owner certificate_usage index selector matching_type
      cert extra_certs

/-- The calls of `dane_create` that the loop over the addresses makes in create mode, one
per certificate chain, as far as the list `tlsas` goes. -/
def dane_create_all (w : World) (tlsa_owner : DomainName)
    (certificate_usage : Nat) (index : Int) (selector matching_type : Nat)
    (verify_server_name : Bool) (name : DomainName) :
    List (X509 × List X509) → List ldns_rr → Option (List ldns_rr)
  | [], tlsas => some tlsas
  | chain :: rest, tlsas =>
    match dane_create w tlsas tlsa_owner certificate_usage index selector matching_type
        chain.1 chain.2 verify_server_name name with
    | none => none
    | some tlsas1 =>
      dane_create_all w tlsa_owner certificate_usage index selector matching_type
        verify_server_name name rest tlsas1

/-- What a call of `dane_create` does, in the order of the source. -/
inductive create_step where
  /-- The call `dane_verify_server_name(cert, name)` with its result. -/
  | identity_checked (result : Option Bool)
  /-- The message "The certificate does not match the server name" and
  `exit(EXIT_FAILURE)`. -/
  | name_mismatch_exit
  /-- The call `ldns_dane_select_certificate` with its status. -/
  | certificate_selected (s : ldns_status)
  /-- The call `ldns_dane_create_tlsa_rr` with its status. -/
  | tlsa_rr_created (s : ldns_status)
  /-- The exit through `LDNS_ERR` on the status. -/
  | ldns_err_exit (s : ldns_status)
  /-- The call `ldns_rr_set_owner(tlsa_rr, tlsa_owner)`. -/
  | owner_set
  /-- The call `ldns_rr_list_contains_rr(tlsas, tlsa_rr)` with its result. -/
  | contains_checked (found : Bool)
  /-- The call `ldns_rr_list_push_rr(tlsas, tlsa_rr)`. -/
  | rr_pushed (tlsa_rr : ldns_rr)
  deriving DecidableEq, Repr

/-- The part of `dane_create` after the identity check, with the steps it takes: the
steps in order, and the list `tlsas` after them (`none`: the process ended). -/
def dane_create_build_steps (w : World) (tlsas : List ldns_rr) (tlsa_owner : DomainName)
    (certificate_usage : Nat) (index : Int) (selector matching_type : Nat)
    (cert : X509) (extra_certs : List X509) :
    List create_step × Option (List ldns_rr) :=
  let sel := w.ldns_dane_select_certificate cert extra_certs certificate_usage index
  if sel.1 ≠ LDNS_STATUS_OK then
    ([create_step.certificate_selected sel.1, create_step.ldns_err_exit sel.1], none)
  else
    let cr := w.ldns_dane_create_tlsa_rr certificate_usage selector matching_type sel.2
    if cr.1 ≠ LDNS_STATUS_OK then
      ([create_step.certificate_selected sel.1, create_step.tlsa_rr_created cr.1,
        create_step.ldns_err_exit cr.1], none)
    else
      let tlsa_rr := { cr.2 with owner := tlsa_owner }
      if ! ldns_rr_list_contains_rr tlsas tlsa_rr then
        ([create_step.certificate_selected sel.1, create_step.tlsa_rr_created cr.1,
          create_step.owner_set, create_step.contains_checked false,
          create_step.rr_pushed tlsa_rr],
          some (ldns_rr_list_push_rr tlsas tlsa_rr))
      else
        ([create_step.certificate_selected sel.1, create_step.tlsa_rr_created cr.1,
          create_step.owner_set, create_step.contains_checked true],
          some tlsas)

/-- The function `dane_create` with the steps it takes, in the order of the source: the
identity check when it is requested, then the build part.  The second component is the
result of `dane_create`. -/
def dane_create_steps (w : World) (tlsas : List ldns_rr) (tlsa_owner : DomainName)
    (certificate_usage : Nat) (index : Int) (selector matching_type : Nat)
    (cert : X509) (extra_certs : List X509)
    (verify_server_name : Bool) (name : DomainName) :
    List create_step × Option (List ldns_rr) :=
  if verify_server_name then
    match dane_verify_server_name cert name with
    | none => ([create_step.identity_checked none], none)
    | some false =>
      ([create_step.identity_checked (some false), create_step.name_mismatch_exit], none)
    | some true =>
      let build := dane_create_build_steps w tlsas tlsa_owner certificate_usage index
        selector matching_type cert extra_certs
      (create_step.identity_checked (some true) :: build.1, build.2)
  else
    dane_create_build_steps w tlsas tlsa_owner certificate_usage index selector
      matching_type cert extra_certs

/-! ## Endpoint Orchestrator: `main` -/

/-- What `main` holds after the option loop and the address filter. -/
structure Options where
  print_tlsa_as_type52 : Bool
  assume_dnssec_validity : Bool
  assume_pkix_validity : Bool
  verify_server_name : Bool
  CAfile : Option String
  CApath : Option String
  cert_file : Option String
  index : Int
  addresses : List Address

/-- The local `mode` of `main`. -/
inductive Mode where
  | VERIFY
  | CREATE
  deriving DecidableEq, Repr

/-- What a run does that can be observed, in order. -/
inductive Event where
  /-- `print_usage` wrote the usage text. -/
  | usage_printed
  /-- The warning "TLSA records ... were found, but were insecure". -/
  | warning_insecure
  /-- The warning "No TLSA records ... were found". -/
  | warning_no_tlsa
  /-- A call of `get_ssl_cert_chain` for the address. -/
  | contacted (address : Address)
  /-- The line `dane_verify` printed for the address (`none`: the certificate file). -/
  | reported (address : Option Address) (report : verify_report)
  /-- The records printed at the end of create mode. -/
  | tlsas_printed (tlsas : List ldns_rr)
  deriving DecidableEq, Repr

/-- A run of `main`: the events and the exit status of the process.
`owner_freed_twice` says that the cleanup at the end of `main` freed `tlsa_owner` a second
time, which is undefined; `exit_status` is then the status that `exit` is called with if
the process gets that far. -/
structure Run where
  trace : List Event
  exit_status : Nat
  owner_freed_twice : Bool := false
  deriving DecidableEq, Repr

/-- Puts events that happened first before a run. -/
def Run.after (events : List Event) (r : Run) : Run :=
  { trace := events ++ r.trace, exit_status := r.exit_status,
    owner_freed_twice := r.owner_freed_twice }

/-- The end of `main` from `if (mode == CREATE)`: the records are printed in create mode,
the cleanup follows, then `exit(EXIT_SUCCESS)` if `success` and `exit(EXIT_FAILURE)`
otherwise.  In create mode every record of `tlsas` holds the pointer `tlsa_owner` itself
(`ldns_rr_set_owner` in `dane_create` stores it without a copy), so
`ldns_rr_list_deep_free(tlsas)` frees it with the first record and
`ldns_rdf_free(tlsa_owner)` frees it again. -/
def main_finish (mode : Mode) (tlsas : Option (List ldns_rr)) (success : Bool) : Run :=
  { trace := if mode = Mode.CREATE then [Event.tlsas_printed (tlsas.getD [])] else [],
    exit_status := if success then EXIT_SUCCESS else EXIT_FAILURE,
    owner_freed_twice := decide (mode = Mode.CREATE ∧ tlsas.getD [] ≠ []) }

/-- One `switch (mode)` of `main`, for the certificate chain of `address`: the events, and
the new `tlsas` and `success`, or the exit status when the process ends there. -/
def main_switch (w : World) (o : Options) (mode : Mode) (tlsa_owner name : DomainName)
    (certificate_usage selector matching_type : Nat)
    (address : Option Address) (cert : X509) (extra_certs : List X509)
    (tlsas : Option (List ldns_rr)) (success : Bool) :
    List Event × Except Nat (Option (List ldns_rr) × Bool) :=
  match mode with
  | Mode.CREATE =>
    match dane_create w (tlsas.getD []) tlsa_owner certificate_usage o.index selector
        matching_type cert extra_certs o.verify_server_name name with
    | none => ([], Except.error EXIT_FAILURE)
    | some tlsas1 => ([], Except.ok (some tlsas1, success))
  | Mode.VERIFY =>
    match dane_verify (w.ldns_dane_verify tlsas cert extra_certs) o.verify_server_name
        cert name with
    | none => ([], Except.error EXIT_FAILURE)
    | some (validated, report) =>
      ([Event.reported address report],
        Except.ok (tlsas, if ! validated then false else success))

/-- The loop `for (i = 0; i < ldns_rr_list_rr_count(addresses); i++)` of `main` over the
addresses still to visit, followed by the end of `main`. -/
def main_addresses_loop (w : World) (o : Options) (mode : Mode)
    (tlsa_owner name : DomainName) (certificate_usage selector matching_type : Nat) :
    List Address → Option (List ldns_rr) → Bool → Run
  | [], tlsas, success => main_finish mode tlsas success
  | address :: rest, tlsas, success =>
    let chain := w.get_ssl_cert_chain address
    if chain.1 ≠ LDNS_STATUS_OK then
      { trace := [Event.contacted address], exit_status := ldns_err chain.1 }
    else
      match main_switch w o mode tlsa_owner name certificate_usage selector matching_type
          (some address) chain.2.1 chain.2.2 tlsas success with
      | (events, Except.error status) =>
        { trace := Event.contacted address :: events, exit_status := status }
      | (events, Except.ok (tlsas1, success1)) =>
        Run.after (Event.contacted address :: events)
          (main_addresses_loop w o mode tlsa_owner name certificate_usage selector
            matching_type rest tlsas1 success1)

/-- The part of `main` from "ssl inititalize" to the end. -/
def main_tls (w : World) (o : Options) (mode : Mode) (tlsa_owner name : DomainName)
    (certificate_usage selector matching_type : Nat)
    (tlsas : Option (List ldns_rr)) : Run :=
  if w.ssl_setup_ok = false then { trace := [], exit_status := ssl_err }
  else
    match o.cert_file with
    | some _ =>
      match w.file_cert with
      | none => { trace := [], exit_status := ssl_err }
      | some (cert, extra_certs) =>
        match main_switch w o mode tlsa_owner name certificate_usage selector
            matching_type none cert extra_certs tlsas true with
        | (events, Except.error status) => { trace := events, exit_status := status }
        | (events, Except.ok (tlsas1, success1)) =>
          Run.after events (main_finish mode tlsas1 success1)
    | none =>
      let looked_up : Except Nat (List Address) :=
        if o.addresses.length = 0 then
          if w.dane_setup_resolver ≠ LDNS_STATUS_OK then
            Except.error (ldns_err w.dane_setup_resolver)
          else
            match w.dane_lookup_addresses with
            | none => Except.error EXIT_FAILURE
            | some addresses => Except.ok addresses
        else Except.ok o.addresses
      match looked_up with
      | Except.error status => { trace := [], exit_status := status }
      | Except.ok addresses =>
        if addresses.length = 0 then { trace := [], exit_status := EXIT_FAILURE }
        else
          main_addresses_loop w o mode tlsa_owner name certificate_usage selector
            matching_type addresses tlsas true

/-- The branch `if (argc == 2)` of `main`: the TLSA lookup.  The events, and the list
`tlsas` to verify against, or the exit status when the process ends there. -/
def main_verify_lookup (w : World) (o : Options) :
    List Event × Except Nat (Option (List ldns_rr)) :=
  if w.dane_setup_resolver ≠ LDNS_STATUS_OK then
    ([], Except.error (ldns_err w.dane_setup_resolver))
  else
    match dane_query w.tlsa_answer w.resolver_dnssec LDNS_RR_TYPE_TLSA false with
    | none => ([], Except.error (ldns_err LDNS_STATUS_MEM_ERR))
    | some (s, tlsas) =>
      if s = LDNS_STATUS_DANE_INSECURE then ([Event.warning_insecure], Except.ok tlsas)
      else if s ≠ LDNS_STATUS_OK then ([], Except.error (ldns_err s))
      else if ldns_rr_list_rr_count tlsas = 0 then
        ([Event.warning_no_tlsa], Except.ok tlsas)
      else if o.assume_pkix_validity then
        ([], Except.ok (some (dane_no_pkix_transform (tlsas.getD []))))
      else ([], Except.ok tlsas)

/-- The branch `else if (argc == 5)` of `main`: the three range checks and the check of
the trust store.  The usage, selector and matching type, or the exit status. -/
def main_create_setup (w : World) (o : Options) (arg2 arg3 arg4 : String) :
    Except Nat (Nat × Nat × Nat) :=
  match usage_within_range w.errno arg2.toList 3 with
  | none => Except.error EXIT_FAILURE
  | some certificate_usage =>
    match usage_within_range w.errno arg3.toList 1 with
    | none => Except.error EXIT_FAILURE
    | some selector =>
      match usage_within_range w.errno arg4.toList 2 with
      | none => Except.error EXIT_FAILURE
      | some matching_type =>
        if (certificate_usage = LDNS_TLSA_USAGE_CA_CONSTRAINT
              ∨ certificate_usage = LDNS_TLSA_USAGE_SERVICE_CERTIFICATE_CONSTRAINT)
            ∧ o.CAfile = none ∧ o.CApath = none ∧ o.assume_pkix_validity = false then
          Except.error EXIT_FAILURE
        else
          Except.ok (certificate_usage.toNat, selector.toNat, matching_type.toNat)

/-- The function `main` from `argc -= optind` on; `argv` holds the arguments that are
left after the options.  A call of `usage_within_range` that returns leaves `errno` as it
was, so every call sees `w.errno`. -/
def main (w : World) (o : Options) (argv : List String) : Run :=
  match argv with
  | name_str :: port_str :: rest =>
    match ldns_dname_new_frm_str name_str with
    | none => { trace := [], exit_status := EXIT_FAILURE }
    | some name =>
      match usage_within_range w.errno port_str.toList 65535 with
      | none => { trace := [], exit_status := EXIT_FAILURE }
      | some port =>
        let owner := w.ldns_dane_create_tlsa_owner name port
        if owner.1 ≠ LDNS_STATUS_OK then { trace := [], exit_status := ldns_err owner.1 }
        else
          match rest with
          | [] =>
            match main_verify_lookup w o with
            | (events, Except.error status) => { trace := events, exit_status := status }
            | (events, Except.ok tlsas) =>
              Run.after events (main_tls w o Mode.VERIFY owner.2 name 666 666 666 tlsas)
          | [arg2, arg3, arg4] =>
            match main_create_setup w o arg2 arg3 arg4 with
            | Except.error status => { trace := [], exit_status := status }
            | Except.ok (certificate_usage, selector, matching_type) =>
              main_tls w o Mode.CREATE owner.2 name certificate_usage selector
                matching_type (some [])
          | _ => { trace := [Event.usage_printed], exit_status := EXIT_SUCCESS }
  | _ => { trace := [Event.usage_printed], exit_status := EXIT_SUCCESS }

/-! ## Values used to state the theorems about `main` -/

/-- The events of the loop over the addresses in verify mode when every endpoint is
processed: the contact and the printed report, endpoint after endpoint. -/
def verify_events (reports : Address → verify_report) : List Address → List Event
  | [] => []
  | address :: rest =>
    Event.contacted address :: Event.reported (some address) (reports address)
      :: verify_events reports rest

/-- A certificate for another name, used as a concrete input. -/
def example_net_cert : X509 :=
  { subject_alt_name := some [{ type := GEN_DNS, dNSName := some "example.net" }],
    subject_name := some [] }

/-- Options as `main` starts with them, with the two addresses `192.0.2.1` and
`192.0.2.2` given by `-a`. -/
def example_options : Options :=
  { print_tlsa_as_type52 := false, assume_dnssec_validity := false,
    assume_pkix_validity := false, verify_server_name := true,
    CAfile := none, CApath := none, cert_file := none, index := 0,
    addresses := ["192.0.2.1", "192.0.2.2"] }

/-- A world with a secure (`ad`) or insecure TLSA answer, in which the chain retrieval for
`192.0.2.1` has the status `first_chain` and yields `example_org_cert`, the one for
`192.0.2.9` fails with a network error, every other address yields `second_cert`, and
`ldns_dane_verify` accepts `example_org_cert` only. -/
def example_world (ad : Bool) (first_chain : ldns_status) (second_cert : X509) : World :=
  { errno := 0,
    ldns_dane_create_tlsa_owner := fun name _ =>
      (LDNS_STATUS_OK, "_443".toList :: "_tcp".toList :: name),
    dane_setup_resolver := LDNS_STATUS_OK,
    resolver_dnssec := true,
    tlsa_answer := some { answer := example_tlsas, ad := ad },
    dane_lookup_addresses := some [],
    ssl_setup_ok := true,
    file_cert := none,
    get_ssl_cert_chain := fun address =>
      if address = "192.0.2.1" then (first_chain, example_org_cert, [])
      else if address = "192.0.2.9" then (LDNS_STATUS_NETWORK_ERR, second_cert, [])
      else (LDNS_STATUS_OK, second_cert, []),
    ldns_dane_verify := fun _ cert _ =>
      if cert = example_org_cert then LDNS_STATUS_OK
      else LDNS_STATUS_DANE_TLSA_DID_NOT_MATCH,
    ldns_dane_select_certificate := fun cert _ _ _ => (LDNS_STATUS_OK, cert),
    ldns_dane_create_tlsa_rr := fun usage selector matching_type _ =>
      (LDNS_STATUS_OK,
        { owner := [], rr_type := LDNS_RR_TYPE_TLSA, usage := usage, selector := selector,
          matching_type := matching_type, data := [18, 52] }) }

/-- A TLSA record that is not in `example_tlsas`, used as a concrete input. -/
def example_new_rr : ldns_rr :=
  { owner := ["_443".toList, "_tcp".toList, "example".toList, "org".toList],
    rr_type := LDNS_RR_TYPE_TLSA, usage := 2, selector := 0, matching_type := 1,
    data := [86, 120] }

/-! ## One iteration of the do-while loop of `dane_wildcard_label_cmp` -/

/-- The body of the do-while loop, run once from the pattern `w` and the subject `l`: the
wildcard branch, then the loop that skips literal octets.  `Sum.inl b`: the function
returned `b` from inside the body; `Sum.inr (w2, l2)`: the body ended, with the remaining
pattern `w2` and the remaining subject `l2`; `none`: a recursive call ran out of fuel. -/
def do_while_body (rec : Label → Label → Option Bool) (w l : Label) :
    Option (Bool ⊕ (Label × Label)) :=
  let star : Option (Bool ⊕ Label) :=
    if w.head? = some '*' then
      if w.length = 1 then some (Sum.inl true)
      else
        match star_loop (rec w.tail) w.tail.head? l with
        | none => none
        | some true => some (Sum.inl true)
        | some false => some (Sum.inr [])
    else some (Sum.inr l)
  match star with
  | none => none
  | some (Sum.inl b) => some (Sum.inl b)
  | some (Sum.inr l1) => some (Sum.inr (skip_literal w l1))

/-- The condition `iw > 0 && *w == '*' && (il > 0 || iw == 1)` of the do-while loop. -/
def do_while_cond (w l : Label) : Bool :=
  decide (w.length > 0 ∧ w.head? = some '*' ∧ (l.length > 0 ∨ w.length = 1))

/-- A certificate whose only subjectAltName entry, `DNS:a..b`, does not parse, used as a
concrete input. -/
def example_malformed_cert : X509 :=
  { subject_alt_name := some [{ type := GEN_DNS, dNSName := some "a..b" }],
    subject_name := some [] }

/-- The world `example_world` with a secure answer and every chain retrieval successful,
in which `ldns_dane_verify` accepts every certificate; `192.0.2.1` yields
`example_org_cert` and the other addresses yield `second_cert`. -/
def accepting_world (second_cert : X509) : World :=
  { example_world true LDNS_STATUS_OK second_cert with
    ldns_dane_verify := fun _ _ _ => LDNS_STATUS_OK }

/-! # Theorems -/

/-! ### The fuel model computes `label_glob` -/

theorem label_glob_star_nil (l : Label) : label_glob ['*'] l = true := by
  rw [label_glob.eq_def]; rfl

theorem label_glob_star_cons (c1 : Char) (w l : Label) :
    label_glob ('*' :: c1 :: w) l
      = any_tail (fun s => s.head? = some c1 && label_glob (c1 :: w) s) l := by
  rw [label_glob.eq_def]; rfl

theorem label_glob_lit_nil (c : Char) (w : Label) (hc : c ≠ '*') :
    label_glob (c :: w) [] = false := by
  rw [label_glob.eq_def]; simp [hc]

theorem label_glob_lit_cons (c d : Char) (w l : Label) (hc : c ≠ '*') :
    label_glob (c :: w) (d :: l) = (decide (c = d) && label_glob w l) := by
  rw [label_glob.eq_def]; simp [hc]

theorem skip_literal_nil (w : Label) : skip_literal w [] = (w, []) := by
  cases w <;> rfl

theorem star_loop_eq (rec : Label → Option Bool) (f : Label → Bool) (c1 : Char)
    (hrec : ∀ s, rec s = some (f s)) (l : Label) :
    star_loop rec (some c1) l
      = some (any_tail (fun s => s.head? = some c1 && f s) l) := by
  induction l with
  | nil => rfl
  | cons d l ih =>
    by_cases hd : c1 = d
    · subst hd
      cases hf : f (c1 :: l) <;> simp [star_loop, any_tail, hrec, hf, ih]
    · have hd2 : ¬ d = c1 := fun h => hd h.symm
      simp [star_loop, any_tail, hd, hd2, ih]

/-- Where `skip_literal` stops: the closed description has the same value there. -/
theorem label_glob_skip (w l : Label) :
    label_glob w l = label_glob (skip_literal w l).1 (skip_literal w l).2 := by
  induction w generalizing l with
  | nil => cases l <;> rfl
  | cons c w ih =>
    cases l with
    | nil => rfl
    | cons d l =>
      by_cases h : c ≠ '*' ∧ c = d
      · obtain ⟨h1, h2⟩ := h
        subst h2
        simp only [skip_literal, h1, ne_eq, not_false_eq_true, and_self, if_true]
        rw [← ih l]
        simp [label_glob, h1]
      · simp only [skip_literal, h, if_false]

/-- When `skip_literal` stops at a pattern octet that is not `*`, the match fails. -/
theorem label_glob_stuck (w l : Label) (c : Char) (r : Label)
    (hw : (skip_literal w l).1 = c :: r) (hc : c ≠ '*') :
    label_glob w l = false := by
  induction w generalizing l with
  | nil => cases l <;> simp [skip_literal] at hw
  | cons a w ih =>
    cases l with
    | nil =>
      simp only [skip_literal] at hw
      obtain ⟨rfl, rfl⟩ := List.cons.inj hw
      simp [label_glob, hc]
    | cons d l =>
      by_cases h : a ≠ '*' ∧ a = d
      · obtain ⟨h1, h2⟩ := h
        subst h2
        simp only [skip_literal, h1, ne_eq, not_false_eq_true, and_self, if_true] at hw
        simp [label_glob, h1, ih l hw]
      · simp only [skip_literal, h, if_false] at hw
        obtain ⟨rfl, rfl⟩ := List.cons.inj hw
        have : ¬ a = d := fun e => h ⟨hc, e⟩
        simp [label_glob, hc, this]

theorem skip_literal_length (w l : Label) : (skip_literal w l).1.length ≤ w.length := by
  induction w generalizing l with
  | nil => cases l <;> simp [skip_literal]
  | cons c w ih =>
    cases l with
    | nil => simp [skip_literal]
    | cons d l =>
      by_cases h : c ≠ '*' ∧ c = d
      · obtain ⟨h1, h2⟩ := h
        subst h2
        simp only [skip_literal, h1, ne_eq, not_false_eq_true, and_self, if_true,
          List.length_cons]
        exact Nat.le_succ_of_le (ih l)
      · simp only [skip_literal, h, if_false, List.length_cons, le_refl]

/-- One iteration of the do-while loop that starts at a wildcard ends the call. -/
theorem do_while_star (rec : Label → Label → Option Bool) (k : Nat) (w l : Label)
    (hrec : ∀ s, rec w s = some (label_glob w s)) :
    do_while rec (k + 1) ('*' :: w) l = some (label_glob ('*' :: w) l) := by
  cases w with
  | nil => simp [do_while, label_glob_star_nil]
  | cons c1 w1 =>
    have hs := star_loop_eq (rec (c1 :: w1)) (label_glob (c1 :: w1)) c1 hrec l
    cases hv : any_tail (fun s => s.head? = some c1 && label_glob (c1 :: w1) s) l
    · rw [hv] at hs
      simp [do_while, hs, skip_literal_nil, label_glob_star_cons, hv]
    · rw [hv] at hs
      simp [do_while, hs, label_glob_star_cons, hv]

/-- The do-while loop computes `label_glob` when the recursive calls do, given two
iterations. -/
theorem do_while_eq (rec : Label → Label → Option Bool) (k : Nat) (w l : Label)
    (hrec : ∀ w1 s, w1.length < w.length → rec w1 s = some (label_glob w1 s))
    (hw : w ≠ []) :
    do_while rec (k + 2) w l = some (label_glob w l) := by
  obtain ⟨c, w1, rfl⟩ := List.exists_cons_of_ne_nil hw
  by_cases hc : c = '*'
  · subst hc
    exact do_while_star rec (k + 1) w1 l (fun s => hrec w1 s (by simp))
  · have hlen := skip_literal_length (c :: w1) l
    have hglob := label_glob_skip (c :: w1) l
    have hstuck := label_glob_stuck (c :: w1) l
    have hstep : do_while rec (k + 2) (c :: w1) l
        = if (skip_literal (c :: w1) l).1.length > 0
              ∧ (skip_literal (c :: w1) l).1.head? = some '*'
              ∧ ((skip_literal (c :: w1) l).2.length > 0
                  ∨ (skip_literal (c :: w1) l).1.length = 1) then
            do_while rec (k + 1) (skip_literal (c :: w1) l).1 (skip_literal (c :: w1) l).2
          else some ((skip_literal (c :: w1) l).1.length == 0
                      && (skip_literal (c :: w1) l).2.length == 0) := by
      simp [do_while, hc]
    rw [hstep, hglob]
    clear hstep
    generalize skip_literal (c :: w1) l = p at hlen hstuck hglob
    obtain ⟨w2, l2⟩ := p
    simp only at hlen hstuck hglob ⊢
    cases w2 with
    | nil => cases l2 <;> simp [label_glob]
    | cons c2 w3 =>
      by_cases hc2 : c2 = '*'
      · subst hc2
        by_cases hcond : l2.length > 0 ∨ ('*' :: w3).length = 1
        · rw [if_pos ⟨by simp, by simp, hcond⟩]
          refine do_while_star rec k w3 l2 (fun s => hrec w3 s ?_)
          simp only [List.length_cons] at hlen ⊢
          omega
        · rw [if_neg (fun h => hcond h.2.2)]
          have hl2 : l2 = [] := by
            cases l2 with
            | nil => rfl
            | cons d l3 => exact absurd (Or.inl (by simp)) hcond
          subst hl2
          cases w3 with
          | nil => exact absurd (Or.inr rfl) hcond
          | cons c3 w4 => simp [label_glob_star_cons, any_tail]
      · have hne : ¬ (('*' : Char) = c2) := fun e => hc2 e.symm
        rw [if_neg (by simp [hc2])]
        have := hstuck c2 w3 rfl hc2
        rw [hglob] at this
        simp [this]

/-- Fuel `iw + 2` is enough, and the result is `label_glob`. -/
theorem dane_wildcard_label_cmp_fuel_eq (n : Nat) (w l : Label) (hn : w.length + 2 ≤ n) :
    dane_wildcard_label_cmp_fuel n w l = some (label_glob w l) := by
  induction n generalizing w l with
  | zero => omega
  | succ n ih =>
    cases w with
    | nil => cases l <;> simp [dane_wildcard_label_cmp_fuel, label_glob]
    | cons c w1 =>
      simp only [List.length_cons] at hn
      obtain ⟨k, rfl⟩ : ∃ k, n = k + 2 := ⟨n - 2, by omega⟩
      simp only [dane_wildcard_label_cmp_fuel, List.length_cons, Nat.succ_ne_zero, if_false]
      refine do_while_eq _ k (c :: w1) l (fun w2 s hlt => ih w2 s ?_) (by simp)
      simp only [List.length_cons] at hlt
      omega

/-- The function `dane_wildcard_label_cmp` terminates within its fuel on every input, and
more fuel does not change the result. -/
theorem dane_wildcard_label_cmp_fuel_total (n : Nat) (w l : Label)
    (hn : w.length + 2 ≤ n) :
    dane_wildcard_label_cmp_fuel n w l = some (dane_wildcard_label_cmp w l) := by
  rw [dane_wildcard_label_cmp, dane_wildcard_label_cmp_fuel_eq _ w l (le_refl _),
    dane_wildcard_label_cmp_fuel_eq n w l hn]
  rfl

theorem dane_wildcard_label_cmp_eq (w l : Label) :
    dane_wildcard_label_cmp w l = label_glob w l := by
  rw [dane_wildcard_label_cmp, dane_wildcard_label_cmp_fuel_eq _ w l (le_refl _)]
  rfl

/-! ### Consequences for literal and single-wildcard patterns -/

theorem label_glob_nil_iff (l : Label) : label_glob [] l = true ↔ l = [] := by
  cases l <;> simp [label_glob]

theorem label_glob_literal_iff (w l : Label) (hw : '*' ∉ w) :
    label_glob w l = true ↔ l = w := by
  induction w generalizing l with
  | nil => exact label_glob_nil_iff l
  | cons c w ih =>
    have hc : c ≠ '*' := fun e => hw (by simp [e])
    have hw1 : '*' ∉ w := fun h => hw (List.mem_cons_of_mem _ h)
    cases l with
    | nil => simp [label_glob_lit_nil c w hc]
    | cons d l =>
      rw [label_glob_lit_cons c d w l hc]
      simp only [Bool.and_eq_true, decide_eq_true_eq, ih l hw1, List.cons.injEq]
      constructor
      · rintro ⟨h1, h2⟩; exact ⟨h1.symm, h2⟩
      · rintro ⟨h1, h2⟩; exact ⟨h1.symm, h2⟩

theorem label_glob_append (pre w l : Label) (hpre : '*' ∉ pre) :
    label_glob (pre ++ w) (pre ++ l) = label_glob w l := by
  induction pre with
  | nil => rfl
  | cons c pre ih =>
    have hc : c ≠ '*' := fun e => hpre (by simp [e])
    have hp : '*' ∉ pre := fun h => hpre (List.mem_cons_of_mem _ h)
    simp only [List.cons_append]
    rw [label_glob_lit_cons c c _ _ hc, ih hp]
    simp

theorem any_tail_here (p : Label → Bool) (d : Char) (l : Label) (h : p (d :: l) = true) :
    any_tail p (d :: l) = true := by
  simp [any_tail, h]

theorem any_tail_append (p : Label → Bool) (m s : Label) (h : any_tail p s = true) :
    any_tail p (m ++ s) = true := by
  induction m with
  | nil => exact h
  | cons d m ih => simp [any_tail, ih]

/-- A wildcard followed by a literal run accepts every subject that ends in that run. -/
theorem label_glob_star_literal (suf m : Label) (hsuf : '*' ∉ suf) :
    label_glob ('*' :: suf) (m ++ suf) = true := by
  cases suf with
  | nil => exact label_glob_star_nil _
  | cons c s =>
    rw [label_glob_star_cons]
    apply any_tail_append
    apply any_tail_here
    simp [(label_glob_literal_iff (c :: s) (c :: s) hsuf).2 rfl]

/-! ### Claims about the Label Matcher -/

/-- C1 (as stated, refuted): the claim says the wildcard is never zero-width, so that
`matches("a*c","ac")` and `matches("*","")` are false; the code returns true on both. -/
theorem C1_wildcard_zero_width_counterexample :
    dane_wildcard_label_cmp "a*c".toList "ac".toList = true
      ∧ dane_wildcard_label_cmp "*".toList "".toList = true
      ∧ dane_wildcard_label_cmp_fuel 5 "a*c".toList "ac".toList = some true
      ∧ dane_wildcard_label_cmp_fuel 3 "*".toList "".toList = some true := by
  decide

/-- C1 (amended): the wildcard may be zero-width.  For every pattern `pre ++ "*" ++ suf`
with `pre` and `suf` free of `*`, `dane_wildcard_label_cmp` accepts the subject
`pre ++ suf`, in which the wildcard stands for no octet at all. -/
theorem C1_wildcard_may_be_zero_width (pre suf : Label)
    (hpre : '*' ∉ pre) (hsuf : '*' ∉ suf) :
    dane_wildcard_label_cmp (pre ++ '*' :: suf) (pre ++ suf) = true := by
  rw [dane_wildcard_label_cmp_eq, label_glob_append pre _ _ hpre]
  exact label_glob_star_literal suf [] hsuf

theorem C1_wildcard_may_be_zero_width_witness :
    dane_wildcard_label_cmp ("a".toList ++ '*' :: "c".toList) ("a".toList ++ "c".toList)
      = true :=
  C1_wildcard_may_be_zero_width "a".toList "c".toList (by decide) (by decide)

/-- C2: single-wildcard completeness.  For `pre` and `suf` free of `*` and every non-empty
`mid`, `dane_wildcard_label_cmp (pre ++ "*" ++ suf) (pre ++ mid ++ suf)` returns true. -/
theorem C2_single_wildcard_complete (pre suf mid : Label)
    (hpre : '*' ∉ pre) (hsuf : '*' ∉ suf) (_hmid : mid ≠ []) :
    dane_wildcard_label_cmp (pre ++ '*' :: suf) (pre ++ mid ++ suf) = true := by
  rw [dane_wildcard_label_cmp_eq, List.append_assoc, label_glob_append pre _ _ hpre]
  exact label_glob_star_literal suf mid hsuf

theorem C2_single_wildcard_complete_witness :
    dane_wildcard_label_cmp ("a".toList ++ '*' :: "c".toList)
        ("a".toList ++ "b".toList ++ "c".toList) = true
      ∧ dane_wildcard_label_cmp ("".toList ++ '*' :: "".toList)
        ("".toList ++ "a".toList ++ "".toList) = true :=
  ⟨C2_single_wildcard_complete "a".toList "c".toList "b".toList
      (by decide) (by decide) (by decide),
   C2_single_wildcard_complete "".toList "".toList "a".toList
      (by decide) (by decide) (by decide)⟩

/-- C3: literal patterns.  A pattern without `*` (the empty pattern included) is accepted
exactly for the subject that equals it octet for octet; the empty pattern accepts only the
empty subject. -/
theorem C3_literal_pattern (w l : Label) (hw : '*' ∉ w) :
    (dane_wildcard_label_cmp w l = true ↔ l = w)
      ∧ (dane_wildcard_label_cmp [] l = true ↔ l = []) := by
  rw [dane_wildcard_label_cmp_eq, dane_wildcard_label_cmp_eq]
  exact ⟨label_glob_literal_iff w l hw, label_glob_nil_iff l⟩

theorem C3_literal_pattern_witness :
    (dane_wildcard_label_cmp "abc".toList "abd".toList = true ↔ "abd".toList = "abc".toList)
      ∧ (dane_wildcard_label_cmp [] "abd".toList = true ↔ "abd".toList = []) :=
  C3_literal_pattern "abc".toList "abd".toList (by decide)

/-- C4: two non-adjacent wildcards.  For `a`, `b`, `c` free of `*` with `b` non-empty and
non-empty `x`, `y`, `dane_wildcard_label_cmp (a ++ "*" ++ b ++ "*" ++ c)
(a ++ x ++ b ++ y ++ c)` returns true, whatever octets `x` and `y` hold. -/
theorem C4_two_wildcards_backtrack (a b c x y : Label)
    (ha : '*' ∉ a) (hb : '*' ∉ b) (hc : '*' ∉ c)
    (hbne : b ≠ []) (_hx : x ≠ []) (_hy : y ≠ []) :
    dane_wildcard_label_cmp (a ++ '*' :: (b ++ '*' :: c)) (a ++ x ++ b ++ y ++ c)
      = true := by
  obtain ⟨b0, b1, rfl⟩ := List.exists_cons_of_ne_nil hbne
  have hinner : label_glob (b0 :: b1 ++ '*' :: c) (b0 :: b1 ++ (y ++ c)) = true := by
    rw [label_glob_append (b0 :: b1) _ _ hb]
    exact label_glob_star_literal c y hc
  rw [dane_wildcard_label_cmp_eq]
  have hshape : a ++ x ++ (b0 :: b1) ++ y ++ c = a ++ (x ++ (b0 :: b1 ++ (y ++ c))) := by
    simp
  rw [hshape, label_glob_append a _ _ ha]
  show label_glob ('*' :: b0 :: (b1 ++ '*' :: c)) _ = true
  rw [label_glob_star_cons]
  apply any_tail_append
  apply any_tail_here
  simpa using hinner

theorem C4_two_wildcards_backtrack_witness :
    dane_wildcard_label_cmp ("a".toList ++ '*' :: ("b".toList ++ '*' :: "c".toList))
        ("a".toList ++ "X".toList ++ "b".toList ++ "Y".toList ++ "c".toList) = true
      ∧ dane_wildcard_label_cmp ("a".toList ++ '*' :: ("b".toList ++ '*' :: "c".toList))
        ("a".toList ++ "XbbX".toList ++ "b".toList ++ "cYc".toList ++ "c".toList) = true :=
  ⟨C4_two_wildcards_backtrack "a".toList "b".toList "c".toList "X".toList "Y".toList
      (by decide) (by decide) (by decide) (by decide) (by decide) (by decide),
   C4_two_wildcards_backtrack "a".toList "b".toList "c".toList "XbbX".toList "cYc".toList
      (by decide) (by decide) (by decide) (by decide) (by decide) (by decide)⟩

/-! ### Name Matcher -/

theorem labels_loop_iff (name server_name : DomainName) (k i : Nat) :
    labels_loop name server_name k i = true ↔
      ∀ j, i ≤ j → j < i + k → ∃ ln ls, ldns_dname_label name j = some ln
        ∧ ldns_dname_label server_name j = some ls
        ∧ dane_label_matches_label ln ls = true := by
  induction k generalizing i with
  | zero =>
    simp only [labels_loop, true_iff]
    intro j h1 h2
    omega
  | succ k ih =>
    constructor
    · intro h j h1 h2
      rw [labels_loop] at h
      cases hn : ldns_dname_label name i with
      | none => simp [hn] at h
      | some ln =>
        cases hs : ldns_dname_label server_name i with
        | none => simp [hn, hs] at h
        | some ls =>
          cases hm : dane_label_matches_label ln ls with
          | false => simp [hn, hs, hm] at h
          | true =>
            simp only [hn, hs, hm, Bool.not_true, Bool.false_eq_true, if_false] at h
            by_cases hj : j = i
            · subst hj
              exact ⟨ln, ls, hn, hs, hm⟩
            · exact (ih (i + 1)).1 h j (by omega) (by omega)
    · intro h
      obtain ⟨ln, ls, hn, hs, hm⟩ := h i (le_refl _) (by omega)
      rw [labels_loop]
      simp only [hn, hs, hm, Bool.not_true, Bool.false_eq_true, if_false]
      exact (ih (i + 1)).2 (fun j h1 h2 => h j (by omega) (by omega))

/-- C5: label-count rule.  For a certificate name string that parses and a server name with
a different number of labels, `dane_name_matches_server_name` returns false (it returns;
it does not end the process). -/
theorem C5_label_count_rule (name_str : String) (name server_name : DomainName)
    (hparse : ldns_dname_new_frm_str name_str = some name)
    (hcount : ldns_dname_label_count name ≠ ldns_dname_label_count server_name) :
    dane_name_matches_server_name name_str server_name = some false := by
  simp [dane_name_matches_server_name, hparse, hcount]

theorem C5_label_count_rule_witness :
    dane_name_matches_server_name "*.example.org" ["example".toList, "org".toList]
      = some false :=
  C5_label_count_rule "*.example.org" ["*".toList, "example".toList, "org".toList]
    ["example".toList, "org".toList] (by decide) (by decide)

/-- C6: label-by-label definition.  For a certificate name string that parses and a server
name with the same number `n` of labels, `dane_name_matches_server_name` returns, and it
returns true exactly when for every `i < n` the Label Matcher accepts the `i`-th label of
the canonicalised certificate name as pattern against the `i`-th label of the server name;
any label that fails makes the result false. -/
theorem C6_label_by_label (name_str : String) (name server_name : DomainName) (n : Nat)
    (hparse : ldns_dname_new_frm_str name_str = some name)
    (hn : ldns_dname_label_count name = n)
    (hs : ldns_dname_label_count server_name = n) :
    ∃ b, dane_name_matches_server_name name_str server_name = some b
      ∧ (b = true ↔ ∀ i, i < n →
          ∃ ln ls, ldns_dname_label (ldns_dname2canonical name) i = some ln
            ∧ ldns_dname_label server_name i = some ls
            ∧ dane_label_matches_label ln ls = true)
      ∧ (∀ i ln ls, i < n →
          ldns_dname_label (ldns_dname2canonical name) i = some ln →
          ldns_dname_label server_name i = some ls →
          dane_label_matches_label ln ls = false → b = false) := by
  have hiff := labels_loop_iff (ldns_dname2canonical name) server_name n 0
  refine ⟨labels_loop (ldns_dname2canonical name) server_name n 0, ?_, ?_, ?_⟩
  · simp [dane_name_matches_server_name, hparse, hn, hs]
  · rw [hiff]
    constructor
    · intro h i hi
      exact h i (Nat.zero_le _) (by omega)
    · intro h j _ hj
      exact h j (by omega)
  · intro i ln ls hi h1 h2 h3
    cases hb : labels_loop (ldns_dname2canonical name) server_name n 0 with
    | false => rfl
    | true =>
      obtain ⟨ln1, ls1, e1, e2, e3⟩ := hiff.1 hb i (Nat.zero_le _) (by omega)
      rw [h1] at e1
      rw [h2] at e2
      cases e1
      cases e2
      rw [h3] at e3
      cases e3

theorem C6_label_by_label_witness :
    ∃ b, dane_name_matches_server_name "*.Example.org"
          ["www".toList, "example".toList, "org".toList] = some b
      ∧ (b = true ↔ ∀ i, i < 3 →
          ∃ ln ls, ldns_dname_label
              (ldns_dname2canonical ["*".toList, "Example".toList, "org".toList]) i = some ln
            ∧ ldns_dname_label ["www".toList, "example".toList, "org".toList] i = some ls
            ∧ dane_label_matches_label ln ls = true)
      ∧ (∀ i ln ls, i < 3 →
          ldns_dname_label
              (ldns_dname2canonical ["*".toList, "Example".toList, "org".toList]) i = some ln →
          ldns_dname_label ["www".toList, "example".toList, "org".toList] i = some ls →
          dane_label_matches_label ln ls = false → b = false) :=
  C6_label_by_label "*.Example.org" ["*".toList, "Example".toList, "org".toList]
    ["www".toList, "example".toList, "org".toList] 3 (by decide) (by decide) (by decide)

/-! ### Case folding -/

theorem toLower_eq_dot (c : Char) : c.toLower = '.' ↔ c = '.' := by
  constructor
  · intro h
    unfold Char.toLower at h
    simp only at h
    split at h
    · rename_i hup
      exfalso
      generalize c.toNat = n at h hup
      obtain ⟨h1, h2⟩ := hup
      have h3 : n ≥ 65 := h1
      interval_cases n <;> revert h <;> decide
    · exact h
  · rintro rfl
    decide

theorem split_dots_ne_nil (cs : List Char) : split_dots cs ≠ [] := by
  induction cs with
  | nil => simp [split_dots]
  | cons c s ih =>
    rw [split_dots]
    split
    · simp
    · split <;> simp

theorem split_dots_lower (cs : List Char) :
    split_dots (cs.map Char.toLower) = (split_dots cs).map (fun lab => lab.map Char.toLower) := by
  induction cs with
  | nil => rfl
  | cons c s ih =>
    simp only [List.map_cons, split_dots, toLower_eq_dot]
    by_cases hc : c = '.'
    · simp [hc, ih]
    · simp only [hc, if_false, ih]
      cases hsp : split_dots s with
      | nil => exact absurd hsp (split_dots_ne_nil s)
      | cons lab rest => simp

theorem map_lower_eq_dot (cs : List Char) : cs.map Char.toLower = ['.'] ↔ cs = ['.'] := by
  cases cs with
  | nil => simp
  | cons c s =>
    cases s with
    | nil => simp [toLower_eq_dot]
    | cons d s => simp

theorem getLast_lower_nil (pieces : List Label) :
    (pieces.map (fun lab => lab.map Char.toLower)).getLast? = some []
      ↔ pieces.getLast? = some [] := by
  rw [List.getLast?_map]
  cases pieces.getLast? with
  | none => simp
  | some lab => simp

theorem all_len_lower (labels : List Label) :
    (labels.map (fun lab => lab.map Char.toLower)).all
        (fun lab => decide (0 < lab.length ∧ lab.length ≤ 63))
      = labels.all (fun lab => decide (0 < lab.length ∧ lab.length ≤ 63)) := by
  induction labels with
  | nil => rfl
  | cons lab rest ih =>
    simp only [List.map_cons, List.all_cons, List.length_map, ih]

theorem dname_of_chars_lower (cs : List Char) :
    dname_of_chars (cs.map Char.toLower) = (dname_of_chars cs).map ldns_dname2canonical := by
  unfold dname_of_chars
  by_cases h1 : cs = []
  · simp [h1]
  by_cases h2 : cs = ['.']
  · subst h2
    decide
  have h1m : ¬ cs.map Char.toLower = [] := by simpa using h1
  have h2m : ¬ cs.map Char.toLower = ['.'] := fun h => h2 ((map_lower_eq_dot cs).1 h)
  simp only [h1, h2, h1m, h2m, if_false, split_dots_lower]
  by_cases h3 : (split_dots cs).getLast? = some []
  · rw [if_pos ((getLast_lower_nil _).2 h3), if_pos h3, ← List.map_dropLast, all_len_lower]
    split <;> simp [ldns_dname2canonical]
  · rw [if_neg (fun h => h3 ((getLast_lower_nil _).1 h)), if_neg h3, all_len_lower]
    split <;> simp [ldns_dname2canonical]

theorem dane_name_matches_server_name_lower (s t : String) (server_name : DomainName)
    (hst : s.toList.map Char.toLower = t.toList.map Char.toLower) :
    dane_name_matches_server_name s server_name
      = dane_name_matches_server_name t server_name := by
  have e : (dname_of_chars s.toList).map ldns_dname2canonical
      = (dname_of_chars t.toList).map ldns_dname2canonical := by
    rw [← dname_of_chars_lower, ← dname_of_chars_lower, hst]
  unfold dane_name_matches_server_name ldns_dname_new_frm_str
  cases ha : dname_of_chars s.toList with
  | none =>
    cases hb : dname_of_chars t.toList with
    | none => rfl
    | some b =>
      rw [ha, hb] at e
      simp at e
  | some a =>
    cases hb : dname_of_chars t.toList with
    | none =>
      rw [ha, hb] at e
      simp at e
    | some b =>
      rw [ha, hb] at e
      simp only [Option.map_some', Option.some.injEq] at e
      have hlen : ldns_dname_label_count a = ldns_dname_label_count b := by
        have := congrArg List.length e
        simpa [ldns_dname2canonical, ldns_dname_label_count] using this
      simp only [hlen, e]

/-- C7 (as stated, refuted): the claim says `dane_name_matches_server_name` case-folds both
names.  It folds the certificate name only: against the certificate name
`www.example.com` the server name `www.example.com` is accepted and the server name
`WWW.Example.com`, which differs from it in letter case only, is rejected. -/
theorem C7_server_name_case_counterexample :
    dane_name_matches_server_name "www.example.com"
        ["www".toList, "example".toList, "com".toList] = some true
      ∧ dane_name_matches_server_name "www.example.com"
        ["WWW".toList, "Example".toList, "com".toList] = some false
      ∧ ldns_dname2canonical ["WWW".toList, "Example".toList, "com".toList]
        = ldns_dname2canonical ["www".toList, "example".toList, "com".toList] := by
  decide

/-- C7 (amended): `dane_name_matches_server_name` canonicalises the certificate name, so
its result is unchanged when the ASCII letter case of the certificate name string is
altered; the server name is canonicalised by the caller `dane_verify_server_name`, whose
result is unchanged when the ASCII letter case of the server name is altered.  The
certificate name `WWW.Example.com` matches the server name `www.example.com`. -/
theorem C7_case_insensitivity (s t : String) (server_name server_name2 : DomainName)
    (cert : X509)
    (hst : s.toList.map Char.toLower = t.toList.map Char.toLower)
    (hserver : ldns_dname2canonical server_name = ldns_dname2canonical server_name2) :
    dane_name_matches_server_name s server_name
        = dane_name_matches_server_name t server_name
      ∧ dane_verify_server_name cert server_name
        = dane_verify_server_name cert server_name2
      ∧ dane_name_matches_server_name "WWW.Example.com"
        ["www".toList, "example".toList, "com".toList] = some true := by
  refine ⟨dane_name_matches_server_name_lower s t server_name hst, ?_, by decide⟩
  simp only [dane_verify_server_name, hserver]

theorem C7_case_insensitivity_witness :
    dane_name_matches_server_name "*.Example.ORG"
          ["www".toList, "example".toList, "com".toList]
        = dane_name_matches_server_name "*.example.org"
          ["www".toList, "example".toList, "com".toList]
      ∧ dane_verify_server_name
          { subject_alt_name := some [{ type := GEN_DNS, dNSName := some "www.example.com" }],
            subject_name := some [] }
          ["www".toList, "example".toList, "com".toList]
        = dane_verify_server_name
          { subject_alt_name := some [{ type := GEN_DNS, dNSName := some "www.example.com" }],
            subject_name := some [] }
          ["WWW".toList, "Example".toList, "com".toList]
      ∧ dane_name_matches_server_name "WWW.Example.com"
        ["www".toList, "example".toList, "com".toList] = some true :=
  C7_case_insensitivity "*.Example.ORG" "*.example.org"
    ["www".toList, "example".toList, "com".toList]
    ["WWW".toList, "Example".toList, "com".toList]
    { subject_alt_name := some [{ type := GEN_DNS, dNSName := some "www.example.com" }],
      subject_name := some [] }
    (by decide) (by decide)

/-! ### Identity Verifier -/

theorem c_string_of_no_nul (str : String) (h : Char.ofNat 0 ∉ str.toList) :
    c_string str = str := by
  have hl : str.toList.takeWhile (fun c => decide (c ≠ Char.ofNat 0)) = str.toList := by
    rw [List.takeWhile_eq_self_iff]
    intro c hc
    simp only [ne_eq, decide_not, Bool.not_eq_true', decide_eq_false_iff_not]
    intro e
    exact h (e ▸ hc)
  unfold c_string
  rw [hl]
  rfl

theorem dane_name_matches_server_name_returns (str : String) (server_name : DomainName)
    (h : (ldns_dname_new_frm_str str).isSome = true) :
    ∃ b, dane_name_matches_server_name str server_name = some b := by
  obtain ⟨name, hname⟩ := Option.isSome_iff_exists.1 h
  unfold dane_name_matches_server_name
  rw [hname]
  simp only
  split
  · exact ⟨_, rfl⟩
  · exact ⟨_, rfl⟩

theorem name_text_parses_iff (str : String) (h : name_text_parses str = true) :
    c_string str = str ∧ (ldns_dname_new_frm_str str).isSome = true := by
  simp only [name_text_parses, Bool.and_eq_true, List.all_eq_true, decide_eq_true_eq] at h
  refine ⟨c_string_of_no_nul str (fun hmem => ?_), h.2⟩
  have hpos := (h.1 _ hmem).1
  exact absurd hpos (by decide)

theorem san_loop_iff (lc : DomainName) (names : List GENERAL_NAME) (stale : Bool)
    (hall : names.all general_name_parses = true) :
    ∃ b, san_loop lc stale names = some b
      ∧ (b = true ↔ ∃ g str, g ∈ names ∧ g.type = GEN_DNS ∧ g.dNSName = some str
            ∧ dane_name_matches_server_name str lc = some true) := by
  induction names generalizing stale with
  | nil => exact ⟨false, rfl, by simp⟩
  | cons g rest ih =>
    simp only [List.all_cons, Bool.and_eq_true] at hall
    obtain ⟨hg, hrest⟩ := hall
    by_cases ht : g.type = GEN_DNS
    · cases hd : g.dNSName with
      | none => simp [general_name_parses, ht, hd] at hg
      | some str =>
        simp only [general_name_parses, ht, hd, if_true] at hg
        obtain ⟨hcs, hp⟩ := name_text_parses_iff str hg
        obtain ⟨m, hm⟩ := dane_name_matches_server_name_returns str lc hp
        cases m with
        | true =>
          refine ⟨true, by simp [san_loop, ht, hd, hcs, hm], ?_⟩
          simp only [true_iff]
          exact ⟨g, str, List.mem_cons_self _ _, ht, hd, hm⟩
        | false =>
          obtain ⟨b, hb, hiff⟩ := ih true hrest
          refine ⟨b, by simp [san_loop, ht, hd, hcs, hm, hb], ?_⟩
          rw [hiff]
          constructor
          · rintro ⟨g1, s1, h1, h2, h3, h4⟩
            exact ⟨g1, s1, List.mem_cons_of_mem _ h1, h2, h3, h4⟩
          · rintro ⟨g1, s1, h1, h2, h3, h4⟩
            rcases List.mem_cons.1 h1 with rfl | h1
            · rw [hd] at h3
              cases h3
              rw [hm] at h4
              cases h4
            · exact ⟨g1, s1, h1, h2, h3, h4⟩
    · obtain ⟨b, hb, hiff⟩ := ih stale hrest
      refine ⟨b, by simp [san_loop, ht, hb], ?_⟩
      rw [hiff]
      constructor
      · rintro ⟨g1, s1, h1, h2, h3, h4⟩
        exact ⟨g1, s1, List.mem_cons_of_mem _ h1, h2, h3, h4⟩
      · rintro ⟨g1, s1, h1, h2, h3, h4⟩
        rcases List.mem_cons.1 h1 with rfl | h1
        · exact absurd h2 ht
        · exact ⟨g1, s1, h1, h2, h3, h4⟩

/-- The identity check on a certificate whose names are all well formed: it returns, and
it returns true exactly when a DNS entry of the subjectAltName extension or the common
name is accepted by the Name Matcher against the canonicalised server name. -/
theorem dane_verify_server_name_iff (cert : X509) (server_name : DomainName)
    (hwf : cert_names_parse cert = true) :
    ∃ b, dane_verify_server_name cert server_name = some b
      ∧ (b = true ↔
          (∃ names g str, cert.subject_alt_name = some names ∧ g ∈ names
              ∧ g.type = GEN_DNS ∧ g.dNSName = some str
              ∧ dane_name_matches_server_name str (ldns_dname2canonical server_name)
                  = some true)
          ∨ (∃ subject_name str, cert.subject_name = some subject_name
              ∧ common_name_str subject_name = some str
              ∧ dane_name_matches_server_name str (ldns_dname2canonical server_name)
                  = some true)) := by
  obtain ⟨san, subj⟩ := cert
  simp only [cert_names_parse, Bool.and_eq_true] at hwf
  obtain ⟨hsan, hsubj⟩ := hwf
  -- the subject-name half
  have hcn : ∃ c, dane_X509_subject_name_matches_server_name ⟨san, subj⟩
        (ldns_dname2canonical server_name) = some c
      ∧ (c = true ↔ ∃ subject_name str, subj = some subject_name
          ∧ common_name_str subject_name = some str
          ∧ dane_name_matches_server_name str (ldns_dname2canonical server_name)
              = some true) := by
    cases subj with
    | none => simp at hsubj
    | some sn =>
      cases hc : common_name_str sn with
      | none =>
        exact ⟨false, by simp [dane_X509_subject_name_matches_server_name, hc], by simp [hc]⟩
      | some str =>
        simp only [hc] at hsubj
        obtain ⟨hcs, hp⟩ := name_text_parses_iff str hsubj
        obtain ⟨m, hm⟩ := dane_name_matches_server_name_returns str
          (ldns_dname2canonical server_name) hp
        refine ⟨m, by simp [dane_X509_subject_name_matches_server_name, hc, hcs, hm], ?_⟩
        constructor
        · rintro rfl
          exact ⟨sn, str, rfl, hc, hm⟩
        · rintro ⟨sn1, s1, h1, h2, h3⟩
          cases h1
          rw [hc] at h2
          cases h2
          rw [hm] at h3
          cases h3
          rfl
  obtain ⟨c, hc, hciff⟩ := hcn
  -- the subjectAltName half
  have hsn : ∃ a, dane_X509_any_subject_alt_name_matches_server_name ⟨san, subj⟩
        (ldns_dname2canonical server_name) = some a
      ∧ (a = true ↔ ∃ names g str, san = some names ∧ g ∈ names
          ∧ g.type = GEN_DNS ∧ g.dNSName = some str
          ∧ dane_name_matches_server_name str (ldns_dname2canonical server_name)
              = some true) := by
    cases san with
    | none =>
      exact ⟨false, by simp [dane_X509_any_subject_alt_name_matches_server_name], by simp⟩
    | some names =>
      obtain ⟨a, ha, haiff⟩ :=
        san_loop_iff (ldns_dname2canonical server_name) names false hsan
      refine ⟨a, by simp [dane_X509_any_subject_alt_name_matches_server_name, ha], ?_⟩
      rw [haiff]
      constructor
      · rintro ⟨g, s, h1, h2, h3, h4⟩
        exact ⟨names, g, s, rfl, h1, h2, h3, h4⟩
      · rintro ⟨n1, g, s, h0, h1, h2, h3, h4⟩
        cases h0
        exact ⟨g, s, h1, h2, h3, h4⟩
  obtain ⟨a, ha, haiff⟩ := hsn
  cases a with
  | true =>
    refine ⟨true, by simp [dane_verify_server_name, ha], ?_⟩
    simp only [true_iff]
    exact Or.inl (haiff.1 rfl)
  | false =>
    refine ⟨c, by simp [dane_verify_server_name, ha, hc], ?_⟩
    rw [hciff]
    constructor
    · intro h
      exact Or.inr h
    · rintro (h | h)
      · exact absurd (haiff.2 h) (by simp)
      · exact h

theorem san_loop_filter (lc : DomainName) (names : List GENERAL_NAME) (stale : Bool) :
    san_loop lc stale (names.filter (fun g => decide (g.type = GEN_DNS)))
      = san_loop lc stale names := by
  induction names generalizing stale with
  | nil => rfl
  | cons g rest ih =>
    by_cases ht : g.type = GEN_DNS
    · simp only [List.filter_cons, ht, decide_True, if_true, san_loop, ih]
    · simpa [List.filter_cons, ht, san_loop] using ih stale

/-- The cast to `char*` drops what follows a NUL octet: the entry
`DNS:example.org<NUL>.evil.com` is matched as `example.org`. -/
theorem c_string_truncation_example :
    c_string "example.org\x00.evil.com" = "example.org"
      ∧ dane_verify_server_name
          { subject_alt_name :=
              some [{ type := GEN_DNS, dNSName := some "example.org\x00.evil.com" }],
            subject_name := some [] }
          ["example".toList, "org".toList] = some true := by
  decide

/-- A conversion that fails after an earlier entry was converted and freed meets the stale
buffer; the model ends the run there.  As the first entry it is passed over. -/
theorem stale_buffer_example :
    dane_verify_server_name
        { subject_alt_name := some [{ type := GEN_DNS, dNSName := some "example.net" },
                                    { type := GEN_DNS, dNSName := none },
                                    { type := GEN_DNS, dNSName := some "example.org" }],
          subject_name := some [] }
        ["example".toList, "org".toList] = none
      ∧ dane_verify_server_name
          { subject_alt_name := some [{ type := GEN_DNS, dNSName := none },
                                      { type := GEN_DNS, dNSName := some "example.org" }],
            subject_name := some [] }
          ["example".toList, "org".toList] = some true := by
  decide

/-- C8 (as stated, refuted): the claim gives the result for every certificate as "some DNS
entry matches, or the common name matches", independent of the order of the entries.  With
the entries `DNS:a..b`, `DNS:example.org` and the server name `example.org` the second
entry matches, yet the function does not return true: the first entry does not parse and
the process ends.  With the two entries swapped the function returns true. -/
theorem C8_malformed_entry_counterexample :
    dane_name_matches_server_name "example.org"
        (ldns_dname2canonical ["example".toList, "org".toList]) = some true
      ∧ dane_verify_server_name
          { subject_alt_name := some [{ type := GEN_DNS, dNSName := some "a..b" },
                                      { type := GEN_DNS, dNSName := some "example.org" }],
            subject_name := some [] }
          ["example".toList, "org".toList] = none
      ∧ dane_verify_server_name
          { subject_alt_name := some [{ type := GEN_DNS, dNSName := some "example.org" },
                                      { type := GEN_DNS, dNSName := some "a..b" }],
            subject_name := some [] }
          ["example".toList, "org".toList] = some true := by
  decide

/-- C8 (amended): for every certificate whose DNS-type subjectAltName entries and common
name are all well formed (a text of ASCII characters other than NUL that parses as a domain
name), and every intended name, `dane_verify_server_name` returns, and returns true exactly
when some DNS-type subjectAltName entry matches the canonicalised intended name via the
Name Matcher or the common name matches it; for such certificates the result does not
change when the entries are reordered.  For every certificate, well formed or not, the
result does not change when the entries that are not of type DNS are removed, and it is
false when there is no subjectAltName extension and the subject name has no common name
text. -/
theorem C8_identity_verifier (cert : X509) (server_name : DomainName) :
    (cert_names_parse cert = true →
      (∃ b, dane_verify_server_name cert server_name = some b
        ∧ (b = true ↔
            (∃ names g str, cert.subject_alt_name = some names ∧ g ∈ names
                ∧ g.type = GEN_DNS ∧ g.dNSName = some str
                ∧ dane_name_matches_server_name str (ldns_dname2canonical server_name)
                    = some true)
            ∨ (∃ subject_name str, cert.subject_name = some subject_name
                ∧ common_name_str subject_name = some str
                ∧ dane_name_matches_server_name str (ldns_dname2canonical server_name)
                    = some true)))
      ∧ (∀ names names2, cert.subject_alt_name = some names → names2.Perm names →
          dane_verify_server_name (X509.mk (some names2) cert.subject_name) server_name
            = dane_verify_server_name cert server_name))
    ∧ (∀ names, cert.subject_alt_name = some names →
        dane_verify_server_name
            (X509.mk (some (names.filter (fun g => decide (g.type = GEN_DNS))))
              cert.subject_name) server_name
          = dane_verify_server_name cert server_name)
    ∧ (∀ subject_name, cert.subject_alt_name = none →
        cert.subject_name = some subject_name →
        common_name_str subject_name = none →
        dane_verify_server_name cert server_name = some false) := by
  refine ⟨fun hwf => ⟨dane_verify_server_name_iff cert server_name hwf, ?_⟩, ?_, ?_⟩
  · intro names names2 hnames hperm
    obtain ⟨san, subj⟩ := cert
    simp only at hnames
    subst hnames
    have hwf2 : cert_names_parse ⟨some names2, subj⟩ = true := by
      simp only [cert_names_parse, Bool.and_eq_true, List.all_eq_true] at hwf ⊢
      exact ⟨fun g hg => hwf.1 g (hperm.mem_iff.1 hg), hwf.2⟩
    obtain ⟨b, hb, hiff⟩ := dane_verify_server_name_iff ⟨some names, subj⟩ server_name hwf
    obtain ⟨b2, hb2, hiff2⟩ :=
      dane_verify_server_name_iff ⟨some names2, subj⟩ server_name hwf2
    rw [hb, hb2]
    have hbb : b2 = true ↔ b = true := by
      rw [hiff, hiff2]
      constructor
      · rintro (⟨n1, g, s, h0, h1, h2, h3, h4⟩ | h)
        · simp only [Option.some.injEq] at h0
          subst h0
          exact Or.inl ⟨names, g, s, rfl, hperm.mem_iff.1 h1, h2, h3, h4⟩
        · exact Or.inr h
      · rintro (⟨n1, g, s, h0, h1, h2, h3, h4⟩ | h)
        · simp only [Option.some.injEq] at h0
          subst h0
          exact Or.inl ⟨names2, g, s, rfl, hperm.mem_iff.2 h1, h2, h3, h4⟩
        · exact Or.inr h
    cases b <;> cases b2 <;> simp_all
  · intro names hnames
    obtain ⟨san, subj⟩ := cert
    simp only at hnames
    subst hnames
    simp only [dane_verify_server_name, dane_X509_any_subject_alt_name_matches_server_name,
      san_loop_filter, dane_X509_subject_name_matches_server_name]
  · intro sn hnone hsubj hcn
    obtain ⟨san, subj⟩ := cert
    simp only at hnone hsubj
    subst hnone
    subst hsubj
    simp [dane_verify_server_name, dane_X509_any_subject_alt_name_matches_server_name,
      dane_X509_subject_name_matches_server_name, hcn]

theorem C8_identity_verifier_witness :
    cert_names_parse example_org_cert = true
      ∧ dane_verify_server_name example_org_cert ["example".toList, "org".toList]
          = some true
      ∧ (∃ b, dane_verify_server_name example_org_cert ["example".toList, "org".toList]
            = some b
          ∧ (b = true ↔
            (∃ names g str, example_org_cert.subject_alt_name = some names ∧ g ∈ names
                ∧ g.type = GEN_DNS ∧ g.dNSName = some str
                ∧ dane_name_matches_server_name str
                    (ldns_dname2canonical ["example".toList, "org".toList]) = some true)
            ∨ (∃ subject_name str, example_org_cert.subject_name = some subject_name
                ∧ common_name_str subject_name = some str
                ∧ dane_name_matches_server_name str
                    (ldns_dname2canonical ["example".toList, "org".toList]) = some true))) :=
  ⟨by decide, by decide,
    ((C8_identity_verifier example_org_cert ["example".toList, "org".toList]).1
      (by decide)).1⟩

/-! ### Usage Policy Transformer -/

theorem dane_no_pkix_transform_eq_map (tlsas : List ldns_rr)
    (hall : ∀ rr ∈ tlsas, rr.rr_type = LDNS_RR_TYPE_TLSA) :
    dane_no_pkix_transform tlsas = tlsas.map no_pkix_usage := by
  induction tlsas with
  | nil => rfl
  | cons rr rest ih =>
    have h1 : rr.rr_type = LDNS_RR_TYPE_TLSA := hall rr (List.mem_cons_self _ _)
    have h2 := ih (fun r hr => hall r (List.mem_cons_of_mem _ hr))
    simp [dane_no_pkix_transform, h1, h2]

theorem no_pkix_usage_fields (rr : ldns_rr) :
    (no_pkix_usage rr).owner = rr.owner ∧ (no_pkix_usage rr).rr_type = rr.rr_type
      ∧ (no_pkix_usage rr).selector = rr.selector
      ∧ (no_pkix_usage rr).matching_type = rr.matching_type
      ∧ (no_pkix_usage rr).data = rr.data
      ∧ (rr.usage = 0 → (no_pkix_usage rr).usage = 2)
      ∧ (rr.usage = 1 → (no_pkix_usage rr).usage = 3)
      ∧ (rr.usage ≠ 0 → rr.usage ≠ 1 → (no_pkix_usage rr).usage = rr.usage) := by
  unfold no_pkix_usage LDNS_TLSA_USAGE_CA_CONSTRAINT
    LDNS_TLSA_USAGE_SERVICE_CERTIFICATE_CONSTRAINT LDNS_TLSA_USAGE_TRUST_ANCHOR_ASSERTION
    LDNS_TLSA_USAGE_DOMAIN_ISSUED_CERTIFICATE
  by_cases h0 : rr.usage = 0
  · simp [h0]
  · by_cases h1 : rr.usage = 1
    · simp [h1]
    · simp [h0, h1]

/-- C9: for every list of TLSA records `dane_no_pkix_transform` returns a list of the same
length in which record `i` has the owner, type, selector, matching type and association
data of input record `i`, and the usage 2 when the input usage is 0, 3 when it is 1, and
the input usage otherwise. -/
theorem C9_usage_transform (tlsas : List ldns_rr)
    (hall : ∀ rr ∈ tlsas, rr.rr_type = LDNS_RR_TYPE_TLSA) :
    (dane_no_pkix_transform tlsas).length = tlsas.length
      ∧ ∀ i rr, tlsas.get? i = some rr →
          ∃ new_rr, (dane_no_pkix_transform tlsas).get? i = some new_rr
            ∧ new_rr.owner = rr.owner ∧ new_rr.rr_type = rr.rr_type
            ∧ new_rr.selector = rr.selector
            ∧ new_rr.matching_type = rr.matching_type
            ∧ new_rr.data = rr.data
            ∧ (rr.usage = 0 → new_rr.usage = 2)
            ∧ (rr.usage = 1 → new_rr.usage = 3)
            ∧ (rr.usage ≠ 0 → rr.usage ≠ 1 → new_rr.usage = rr.usage) := by
  rw [dane_no_pkix_transform_eq_map tlsas hall]
  refine ⟨List.length_map _ _, ?_⟩
  intro i rr hi
  refine ⟨no_pkix_usage rr, ?_, no_pkix_usage_fields rr⟩
  simp [List.get?_eq_getElem?] at hi ⊢
  simp [hi]

theorem C9_usage_transform_witness :
    (∀ rr ∈ example_tlsas, rr.rr_type = LDNS_RR_TYPE_TLSA)
      ∧ (dane_no_pkix_transform example_tlsas).map (fun rr => rr.usage) = [2, 3]
      ∧ (dane_no_pkix_transform example_tlsas).length = example_tlsas.length :=
  ⟨by decide, by decide, (C9_usage_transform example_tlsas (by decide)).1⟩

/-! ### Association Verifier -/

/-- C10: `dane_verify` returns true exactly when the collaborator status `s` is OK and the
name check is switched off or the identity result `m` is true.  With `s` OK, the name check
on and `m` false the report is the name mismatch; with `s` not OK the report is the status
`s`, whatever the certificate and the name are (the identity check is not run). -/
theorem C10_dane_verify (s : ldns_status) (v : Bool) (cert : X509) (name : DomainName)
    (m : Bool)
    (hm : s = LDNS_STATUS_OK → v = true → dane_verify_server_name cert name = some m) :
    (∃ report, dane_verify s v cert name
          = some (decide (s = LDNS_STATUS_OK ∧ (v = false ∨ m = true)), report)
        ∧ (s = LDNS_STATUS_OK → v = true → m = false →
            report = verify_report.name_mismatch)
        ∧ (s ≠ LDNS_STATUS_OK → report = verify_report.because s))
      ∧ (s ≠ LDNS_STATUS_OK → ∀ (cert2 : X509) (name2 : DomainName),
          dane_verify s v cert2 name2 = some (false, verify_report.because s)) := by
  constructor
  · by_cases hs : s = LDNS_STATUS_OK
    · cases v with
      | false =>
        exact ⟨verify_report.validated, by simp [dane_verify, hs], by simp, by simp [hs]⟩
      | true =>
        have h := hm hs rfl
        cases m with
        | false =>
          exact ⟨verify_report.name_mismatch, by simp [dane_verify, hs, h], by simp,
            by simp [hs]⟩
        | true =>
          exact ⟨verify_report.validated, by simp [dane_verify, hs, h], by simp,
            by simp [hs]⟩
    · exact ⟨verify_report.because s, by simp [dane_verify, hs], by simp [hs], by simp⟩
  · intro hs cert2 name2
    simp [dane_verify, hs]

theorem C10_dane_verify_witness :
    (∃ report, dane_verify LDNS_STATUS_OK true example_org_cert
            ["www".toList, "example".toList, "org".toList]
          = some (decide (LDNS_STATUS_OK = LDNS_STATUS_OK ∧ (true = false ∨ false = true)),
              report)
        ∧ (LDNS_STATUS_OK = LDNS_STATUS_OK → true = true → false = false →
            report = verify_report.name_mismatch)
        ∧ (LDNS_STATUS_OK ≠ LDNS_STATUS_OK → report = verify_report.because LDNS_STATUS_OK))
      ∧ dane_verify LDNS_STATUS_OK true example_org_cert
            ["www".toList, "example".toList, "org".toList]
          = some (false, verify_report.name_mismatch) :=
  ⟨(C10_dane_verify LDNS_STATUS_OK true example_org_cert
      ["www".toList, "example".toList, "org".toList] false (fun _ _ => by decide)).1,
    by decide⟩



/-! ### Endpoint Orchestrator: the loop over the addresses -/

theorem ldns_err_eq (s : ldns_status) : ldns_err s = EXIT_FAILURE := by
  unfold ldns_err ssl_err
  split <;> rfl

theorem run_after_after (e1 e2 : List Event) (r : Run) :
    Run.after e1 (Run.after e2 r) = Run.after (e1 ++ e2) r := by
  simp [Run.after]

/-- The loop in verify mode over endpoints `pre` that are all retrieved and verified, then
`more`: the events of `pre`, then the loop over `more` with the flag updated. -/
theorem verify_loop_append (w : World) (o : Options) (tlsa_owner name : DomainName)
    (cu sel mt : Nat) (tlsas : Option (List ldns_rr))
    (flags : Address → Bool) (reports : Address → verify_report)
    (pre more : List Address) (success : Bool)
    (hchain : ∀ a ∈ pre, (w.get_ssl_cert_chain a).1 = LDNS_STATUS_OK)
    (hverify : ∀ a ∈ pre,
      dane_verify
          (w.ldns_dane_verify tlsas (w.get_ssl_cert_chain a).2.1 (w.get_ssl_cert_chain a).2.2)
          o.verify_server_name (w.get_ssl_cert_chain a).2.1 name
        = some (flags a, reports a)) :
    main_addresses_loop w o Mode.VERIFY tlsa_owner name cu sel mt (pre ++ more) tlsas success
      = Run.after (verify_events reports pre)
          (main_addresses_loop w o Mode.VERIFY tlsa_owner name cu sel mt more tlsas
            (success && pre.all flags)) := by
  induction pre generalizing success with
  | nil => simp [verify_events, Run.after]
  | cons a pre ih =>
    have h1 := hchain a (List.mem_cons_self _ _)
    have h2 := hverify a (List.mem_cons_self _ _)
    have ih2 := ih (if ! flags a then false else success)
      (fun b hb => hchain b (List.mem_cons_of_mem _ hb))
      (fun b hb => hverify b (List.mem_cons_of_mem _ hb))
    simp only [List.cons_append, main_addresses_loop, h1, ne_eq, not_true_eq_false,
      if_false, main_switch, h2, verify_events, List.all_cons]
    show Run.after _ (main_addresses_loop w o Mode.VERIFY tlsa_owner name cu sel mt
      (pre ++ more) tlsas _) = _
    rw [ih2, run_after_after]
    cases flags a <;> cases success <;> simp

/-- C11 (as stated, refuted): the claim takes the exit status to be 0 exactly when the
AND of the per-endpoint results of `dane_verify` is true, whenever every chain retrieval
succeeds.  With two endpoints whose chains are both retrieved, the first validated and the
second presenting the entry `DNS:a..b`, the second call of `dane_verify` does not return
(the identity check ends the process): no result is false, `success` is never cleared, and
the exit status is `EXIT_FAILURE`. -/
theorem C11_fatal_identity_check_counterexample :
    (∀ a ∈ example_options.addresses,
        ((accepting_world example_malformed_cert).get_ssl_cert_chain a).1
          = LDNS_STATUS_OK)
      ∧ dane_verify LDNS_STATUS_OK true example_org_cert ["example".toList, "org".toList]
        = some (true, verify_report.validated)
      ∧ dane_verify LDNS_STATUS_OK true example_malformed_cert
          ["example".toList, "org".toList] = none
      ∧ main (accepting_world example_malformed_cert) example_options
          ["example.org", "443"]
        = { trace := [Event.contacted "192.0.2.1",
                      Event.reported (some "192.0.2.1") verify_report.validated,
                      Event.contacted "192.0.2.2"],
            exit_status := EXIT_FAILURE } := by
  decide

/-- C11 (amended): aggregation in verify mode.  For every endpoint list for which every
chain retrieval succeeds and every call of `dane_verify` returns, the loop of `main`
processes every endpoint in order and the process exit status is `EXIT_SUCCESS` (0) exactly
when every per-endpoint result of `dane_verify` is true, the final `success` being their
logical AND. -/
theorem C11_verify_aggregate (w : World) (o : Options) (tlsa_owner name : DomainName)
    (cu sel mt : Nat) (tlsas : Option (List ldns_rr))
    (flags : Address → Bool) (reports : Address → verify_report)
    (addresses : List Address)
    (hchain : ∀ a ∈ addresses, (w.get_ssl_cert_chain a).1 = LDNS_STATUS_OK)
    (hverify : ∀ a ∈ addresses,
      dane_verify
          (w.ldns_dane_verify tlsas (w.get_ssl_cert_chain a).2.1 (w.get_ssl_cert_chain a).2.2)
          o.verify_server_name (w.get_ssl_cert_chain a).2.1 name
        = some (flags a, reports a)) :
    main_addresses_loop w o Mode.VERIFY tlsa_owner name cu sel mt addresses tlsas true
        = { trace := verify_events reports addresses,
            exit_status := if addresses.all flags then EXIT_SUCCESS else EXIT_FAILURE }
      ∧ ((main_addresses_loop w o Mode.VERIFY tlsa_owner name cu sel mt addresses tlsas
            true).exit_status = 0 ↔ ∀ a ∈ addresses, flags a = true) := by
  have h := verify_loop_append w o tlsa_owner name cu sel mt tlsas flags reports addresses []
    true hchain hverify
  rw [List.append_nil] at h
  have h2 : main_addresses_loop w o Mode.VERIFY tlsa_owner name cu sel mt addresses tlsas true
      = { trace := verify_events reports addresses,
          exit_status := if addresses.all flags then EXIT_SUCCESS else EXIT_FAILURE } := by
    rw [h]
    simp [main_addresses_loop, main_finish, Run.after]
  refine ⟨h2, ?_⟩
  rw [h2]
  by_cases hall : addresses.all flags = true
  · simp only [hall, if_true, EXIT_SUCCESS, true_iff]
    exact fun a ha => List.all_eq_true.1 hall a ha
  · simp only [hall, EXIT_FAILURE]
    simp only [Bool.false_eq_true, if_false, Nat.succ_ne_zero, false_iff]
    exact fun hcontra => hall (List.all_eq_true.2 hcontra)

theorem C11_verify_aggregate_witness :
    main (example_world true LDNS_STATUS_OK example_net_cert) example_options
          ["example.org", "443"]
        = { trace := [Event.contacted "192.0.2.1",
                      Event.reported (some "192.0.2.1") verify_report.validated,
                      Event.contacted "192.0.2.2",
                      Event.reported (some "192.0.2.2")
                        (verify_report.because LDNS_STATUS_DANE_TLSA_DID_NOT_MATCH)],
            exit_status := EXIT_FAILURE }
      ∧ ((main_addresses_loop (example_world true LDNS_STATUS_OK example_net_cert)
            example_options Mode.VERIFY [] ["example".toList, "org".toList] 666 666 666
            ["192.0.2.1", "192.0.2.2"] (some example_tlsas) true).exit_status = 0
          ↔ ∀ a ∈ ["192.0.2.1", "192.0.2.2"],
              (fun a => decide (a = "192.0.2.1")) a = true) :=
  ⟨by decide,
    (C11_verify_aggregate (example_world true LDNS_STATUS_OK example_net_cert)
      example_options [] ["example".toList, "org".toList] 666 666 666 (some example_tlsas)
      (fun a => decide (a = "192.0.2.1"))
      (fun a => if a = "192.0.2.1" then verify_report.validated
                else verify_report.because LDNS_STATUS_DANE_TLSA_DID_NOT_MATCH)
      ["192.0.2.1", "192.0.2.2"] (by decide) (by decide)).2⟩

/-- C12 (as stated, refuted): the claim says that a failed chain retrieval is recorded and
the later endpoints are still processed.  With the two endpoints `192.0.2.1` and
`192.0.2.2` and a network error on the first, the run ends with `EXIT_FAILURE` after the
first contact; the second endpoint is never contacted. -/
theorem C12_network_error_counterexample :
    main (example_world true LDNS_STATUS_NETWORK_ERR example_org_cert) example_options
          ["example.org", "443"]
        = { trace := [Event.contacted "192.0.2.1"], exit_status := EXIT_FAILURE }
      ∧ Event.contacted "192.0.2.2" ∉
          (main (example_world true LDNS_STATUS_NETWORK_ERR example_org_cert)
            example_options ["example.org", "443"]).trace := by
  decide

/-- C12 (amended): a failed chain retrieval is fatal.  For every endpoint list, when the
endpoints before endpoint `i` are retrieved and verified and the chain retrieval for
endpoint `i` fails with any status other than OK (a network error included), the process
ends there with `EXIT_FAILURE`: the trace holds the events of the earlier endpoints and the
contact of endpoint `i`, and no later endpoint is contacted. -/
theorem C12_retrieval_error_fatal (w : World) (o : Options) (tlsa_owner name : DomainName)
    (cu sel mt : Nat) (tlsas : Option (List ldns_rr))
    (flags : Address → Bool) (reports : Address → verify_report)
    (pre later : List Address) (address : Address)
    (hchain : ∀ a ∈ pre, (w.get_ssl_cert_chain a).1 = LDNS_STATUS_OK)
    (hverify : ∀ a ∈ pre,
      dane_verify
          (w.ldns_dane_verify tlsas (w.get_ssl_cert_chain a).2.1 (w.get_ssl_cert_chain a).2.2)
          o.verify_server_name (w.get_ssl_cert_chain a).2.1 name
        = some (flags a, reports a))
    (hfail : (w.get_ssl_cert_chain address).1 ≠ LDNS_STATUS_OK) :
    main_addresses_loop w o Mode.VERIFY tlsa_owner name cu sel mt
        (pre ++ address :: later) tlsas true
      = { trace := verify_events reports pre ++ [Event.contacted address],
          exit_status := EXIT_FAILURE } := by
  rw [verify_loop_append w o tlsa_owner name cu sel mt tlsas flags reports pre
    (address :: later) true hchain hverify]
  simp [main_addresses_loop, hfail, Run.after, ldns_err_eq]

theorem C12_retrieval_error_fatal_witness :
    main_addresses_loop (example_world true LDNS_STATUS_OK example_org_cert)
        example_options Mode.VERIFY [] ["example".toList, "org".toList] 666 666 666
        (["192.0.2.1"] ++ "192.0.2.9" :: ["192.0.2.2"]) (some example_tlsas) true
      = { trace := verify_events (fun _ => verify_report.validated) ["192.0.2.1"]
            ++ [Event.contacted "192.0.2.9"],
          exit_status := EXIT_FAILURE } :=
  C12_retrieval_error_fatal (example_world true LDNS_STATUS_OK example_org_cert)
    example_options [] ["example".toList, "org".toList] 666 666 666 (some example_tlsas)
    (fun _ => true) (fun _ => verify_report.validated)
    ["192.0.2.1"] ["192.0.2.2"] "192.0.2.9" (by decide) (by decide) (by decide)

/-! ### Association Builder -/

theorem tlsas_insert_mem (tlsas : List ldns_rr) (rr : ldns_rr) (h : rr ∈ tlsas) :
    tlsas_insert tlsas rr = tlsas := by
  simp [tlsas_insert, ldns_rr_list_contains_rr, h]

theorem tlsas_insert_not_mem (tlsas : List ldns_rr) (rr : ldns_rr) (h : rr ∉ tlsas) :
    tlsas_insert tlsas rr = tlsas ++ [rr] := by
  simp [tlsas_insert, ldns_rr_list_contains_rr, ldns_rr_list_push_rr, h]

theorem tlsas_insert_nodup (tlsas : List ldns_rr) (rr : ldns_rr) (h : tlsas.Nodup) :
    (tlsas_insert tlsas rr).Nodup := by
  by_cases hm : rr ∈ tlsas
  · rw [tlsas_insert_mem tlsas rr hm]
    exact h
  · rw [tlsas_insert_not_mem tlsas rr hm]
    refine List.Nodup.append h (List.nodup_singleton rr) ?_
    intro x hx hx2
    rw [List.mem_singleton] at hx2
    subst hx2
    exact hm hx

theorem tlsas_insert_self_mem (tlsas : List ldns_rr) (rr : ldns_rr) :
    rr ∈ tlsas_insert tlsas rr := by
  by_cases hm : rr ∈ tlsas
  · rw [tlsas_insert_mem tlsas rr hm]
    exact hm
  · rw [tlsas_insert_not_mem tlsas rr hm]
    simp

theorem foldl_insert_nodup (rs tlsas : List ldns_rr) (h : tlsas.Nodup) :
    (rs.foldl tlsas_insert tlsas).Nodup := by
  induction rs generalizing tlsas with
  | nil => exact h
  | cons r rs ih => exact ih _ (tlsas_insert_nodup tlsas r h)

/-- A call of `dane_create` that returns has inserted one record with the owner
`tlsa_owner`. -/
theorem dane_create_some (w : World) (tlsas tlsas1 : List ldns_rr) (tlsa_owner : DomainName)
    (cu : Nat) (index : Int) (sel mt : Nat) (cert : X509) (extra_certs : List X509)
    (v : Bool) (name : DomainName)
    (h : dane_create w tlsas tlsa_owner cu index sel mt cert extra_certs v name
      = some tlsas1) :
    ∃ rr, tlsas1 = tlsas_insert tlsas rr := by
  have hb : ∀ t, dane_create_build w tlsas tlsa_owner cu index sel mt cert extra_certs
      = some t → ∃ rr, t = tlsas_insert tlsas rr := by
    intro t ht
    unfold dane_create_build at ht
    simp only at ht
    split at ht
    · cases ht
    · split at ht
      · cases ht
      · exact ⟨_, (Option.some.inj ht).symm⟩
  unfold dane_create at h
  cases v with
  | false => exact hb _ (by simpa using h)
  | true =>
    simp only [if_true] at h
    cases hid : dane_verify_server_name cert name with
    | none => simp [hid] at h
    | some b =>
      cases b with
      | false => simp [hid] at h
      | true => exact hb _ (by simpa [hid] using h)

/-- C13: uniqueness invariant.  Starting from the empty list, after any sequence of
insertions of `dane_create` (the step insert-if-absent), and after any sequence of calls of
`dane_create` that return, the accumulated TLSA list holds no record twice. -/
theorem C13_uniqueness_invariant :
    (∀ rs : List ldns_rr, (rs.foldl tlsas_insert []).Nodup)
      ∧ (∀ (w : World) (tlsa_owner : DomainName) (cu : Nat) (index : Int) (sel mt : Nat)
          (v : Bool) (name : DomainName) (chains : List (X509 × List X509))
          (tlsas : List ldns_rr),
          dane_create_all w tlsa_owner cu index sel mt v name chains [] = some tlsas →
          tlsas.Nodup) := by
  refine ⟨fun rs => foldl_insert_nodup rs [] List.nodup_nil, ?_⟩
  intro w tlsa_owner cu index sel mt v name chains
  have key : ∀ (start tlsas : List ldns_rr), start.Nodup →
      dane_create_all w tlsa_owner cu index sel mt v name chains start = some tlsas →
      tlsas.Nodup := by
    induction chains with
    | nil =>
      intro start tlsas hs h
      simp only [dane_create_all, Option.some.injEq] at h
      subst h
      exact hs
    | cons c rest ih =>
      intro start tlsas hs h
      rw [dane_create_all] at h
      cases hc : dane_create w start tlsa_owner cu index sel mt c.1 c.2 v name with
      | none => simp [hc] at h
      | some t1 =>
        simp only [hc] at h
        obtain ⟨rr, hrr⟩ := dane_create_some w start t1 tlsa_owner cu index sel mt c.1 c.2
          v name hc
        exact ih t1 tlsas (hrr ▸ tlsas_insert_nodup start rr hs) h
  intro tlsas h
  exact key [] tlsas List.nodup_nil h

theorem C13_uniqueness_invariant_witness :
    dane_create_all (example_world true LDNS_STATUS_OK example_org_cert)
          ["_443".toList, "_tcp".toList, "example".toList, "org".toList] 3 0 0 1 true
          ["example".toList, "org".toList]
          [(example_org_cert, []), (example_org_cert, [])] []
        = some [{ owner := ["_443".toList, "_tcp".toList, "example".toList, "org".toList],
                  rr_type := LDNS_RR_TYPE_TLSA, usage := 3, selector := 0,
                  matching_type := 1, data := [18, 52] }]
      ∧ (List.foldl tlsas_insert [] (example_tlsas ++ example_tlsas)).Nodup :=
  ⟨by decide, C13_uniqueness_invariant.1 (example_tlsas ++ example_tlsas)⟩

/-- C14: idempotence of the insertion.  Performing the insertion step of `dane_create`
with a record twice leaves the list exactly as after the first insertion; inserting a
record that is present leaves the list unchanged; and a call of `dane_create` repeated
with the same arguments on the list that the first call left returns that list. -/
theorem C14_insert_idempotent (tlsas : List ldns_rr) (rr : ldns_rr) :
    tlsas_insert (tlsas_insert tlsas rr) rr = tlsas_insert tlsas rr
      ∧ (rr ∈ tlsas → tlsas_insert tlsas rr = tlsas)
      ∧ (∀ (w : World) (tlsa_owner : DomainName) (cu : Nat) (index : Int) (sel mt : Nat)
          (cert : X509) (extra_certs : List X509) (v : Bool) (name : DomainName)
          (tlsas1 : List ldns_rr),
          dane_create w tlsas tlsa_owner cu index sel mt cert extra_certs v name
            = some tlsas1 →
          dane_create w tlsas1 tlsa_owner cu index sel mt cert extra_certs v name
            = some tlsas1) := by
  refine ⟨tlsas_insert_mem _ rr (tlsas_insert_self_mem tlsas rr),
    tlsas_insert_mem tlsas rr, ?_⟩
  intro w tlsa_owner cu index sel mt cert extra_certs v name tlsas1 h
  have hb : ∀ t, dane_create_build w tlsas tlsa_owner cu index sel mt cert extra_certs
      = some t →
      dane_create_build w t tlsa_owner cu index sel mt cert extra_certs = some t := by
    intro t ht
    unfold dane_create_build at ht ⊢
    simp only at ht ⊢
    split at ht
    · cases ht
    · rename_i h1
      split at ht
      · cases ht
      · rename_i h2
        have ht2 := Option.some.inj ht
        rw [if_neg h1, if_neg h2, ← ht2]
        exact congrArg some (tlsas_insert_mem _ _ (tlsas_insert_self_mem tlsas _))
  unfold dane_create at h ⊢
  cases v with
  | false =>
    simp only [Bool.false_eq_true, if_false] at h ⊢
    exact hb _ h
  | true =>
    simp only [if_true] at h ⊢
    cases hid : dane_verify_server_name cert name with
    | none => simp [hid] at h
    | some b =>
      cases b with
      | false => simp [hid] at h
      | true =>
        simp only [hid] at h ⊢
        exact hb _ h

theorem C14_insert_idempotent_witness :
    (tlsas_insert example_tlsas example_new_rr).length = 3
      ∧ tlsas_insert (tlsas_insert example_tlsas example_new_rr) example_new_rr
        = tlsas_insert example_tlsas example_new_rr :=
  ⟨by decide, (C14_insert_idempotent example_tlsas example_new_rr).1⟩

/-- The second component of `dane_create_build_steps` is the result of
`dane_create_build`. -/
theorem dane_create_build_steps_result (w : World) (tlsas : List ldns_rr)
    (tlsa_owner : DomainName) (cu : Nat) (index : Int) (sel mt : Nat)
    (cert : X509) (extra_certs : List X509) :
    (dane_create_build_steps w tlsas tlsa_owner cu index sel mt cert extra_certs).2
      = dane_create_build w tlsas tlsa_owner cu index sel mt cert extra_certs := by
  unfold dane_create_build_steps dane_create_build tlsas_insert
  simp only
  split
  · rfl
  · split
    · rfl
    · split <;> rfl

/-- The second component of `dane_create_steps` is the result of `dane_create`, on every
input. -/
theorem dane_create_steps_result (w : World) (tlsas : List ldns_rr)
    (tlsa_owner : DomainName) (cu : Nat) (index : Int) (sel mt : Nat)
    (cert : X509) (extra_certs : List X509) (v : Bool) (name : DomainName) :
    (dane_create_steps w tlsas tlsa_owner cu index sel mt cert extra_certs v name).2
      = dane_create w tlsas tlsa_owner cu index sel mt cert extra_certs v name := by
  unfold dane_create_steps dane_create
  cases v with
  | false =>
    simp only [Bool.false_eq_true, if_false]
    exact dane_create_build_steps_result w tlsas tlsa_owner cu index sel mt cert extra_certs
  | true =>
    simp only [if_true]
    cases dane_verify_server_name cert name with
    | none => rfl
    | some b =>
      cases b with
      | false => rfl
      | true =>
        exact dane_create_build_steps_result w tlsas tlsa_owner cu index sel mt cert
          extra_certs

/-- The build part of `dane_create` never runs the identity check. -/
theorem dane_create_build_steps_no_identity (w : World) (tlsas : List ldns_rr)
    (tlsa_owner : DomainName) (cu : Nat) (index : Int) (sel mt : Nat)
    (cert : X509) (extra_certs : List X509) (r : Option Bool) :
    create_step.identity_checked r ∉
      (dane_create_build_steps w tlsas tlsa_owner cu index sel mt cert extra_certs).1 := by
  unfold dane_create_build_steps
  simp only
  split
  · simp
  · split
    · simp
    · split <;> simp

/-- C17: identity precondition of `dane_create`.  With name verification requested and
`dane_verify_server_name(cert, name)` false, `dane_create` takes two steps only, the
identity check and the exit on the name mismatch, whatever the collaborators would answer:
no certificate is selected, no record is created and none is pushed, the call does not
return, and the run of `main` ends at that endpoint with `EXIT_FAILURE` without printing a
record.  With name verification not requested, whatever the identity check would give,
the steps and the result are those of the build part alone, for every name, and the
identity check is not among the steps. -/
theorem C17_identity_precondition (w : World) (o : Options) (tlsas : List ldns_rr)
    (tlsa_owner : DomainName) (cu : Nat) (index : Int) (sel mt : Nat)
    (cert : X509) (extra_certs : List X509) (name : DomainName)
    (address : Address) (later : List Address) (success : Bool) :
    (dane_verify_server_name cert name = some false →
      (∀ w2 : World,
          dane_create_steps w2 tlsas tlsa_owner cu index sel mt cert extra_certs true name
            = ([create_step.identity_checked (some false), create_step.name_mismatch_exit],
                none))
        ∧ (∀ w2 : World,
            dane_create w2 tlsas tlsa_owner cu index sel mt cert extra_certs true name
              = (dane_create_steps w2 tlsas tlsa_owner cu index sel mt cert extra_certs
                  true name).2)
        ∧ (∀ w2 : World,
            dane_create w2 tlsas tlsa_owner cu index sel mt cert extra_certs true name
              = none)
        ∧ (w.get_ssl_cert_chain address = (LDNS_STATUS_OK, cert, extra_certs) →
            o.verify_server_name = true →
            main_addresses_loop w o Mode.CREATE tlsa_owner name cu sel mt
                (address :: later) (some tlsas) success
              = { trace := [Event.contacted address], exit_status := EXIT_FAILURE }))
      ∧ (∀ name2 : DomainName,
          dane_create_steps w tlsas tlsa_owner cu index sel mt cert extra_certs false name2
              = dane_create_build_steps w tlsas tlsa_owner cu index sel mt cert extra_certs
            ∧ ∀ r, create_step.identity_checked r ∉
                (dane_create_steps w tlsas tlsa_owner cu index sel mt cert extra_certs false
                  name2).1)
      ∧ (∀ name2 : DomainName,
          dane_create w tlsas tlsa_owner cu index sel mt cert extra_certs false name2
            = dane_create_build w tlsas tlsa_owner cu index sel mt cert extra_certs) := by
  refine ⟨fun hid => ⟨?_, ?_, ?_, ?_⟩, ?_, ?_⟩
  · intro w2
    simp [dane_create_steps, hid]
  · intro w2
    exact (dane_create_steps_result w2 tlsas tlsa_owner cu index sel mt cert extra_certs
      true name).symm
  · intro w2
    simp [dane_create, hid]
  · intro hchain hv
    simp [main_addresses_loop, hchain, main_switch, dane_create, hid, hv]
  · intro name2
    have h : dane_create_steps w tlsas tlsa_owner cu index sel mt cert extra_certs false
        name2
        = dane_create_build_steps w tlsas tlsa_owner cu index sel mt cert extra_certs := by
      simp [dane_create_steps]
    refine ⟨h, fun r => ?_⟩
    rw [h]
    exact dane_create_build_steps_no_identity w tlsas tlsa_owner cu index sel mt cert
      extra_certs r
  · intro name2
    simp [dane_create]

theorem C17_identity_precondition_witness :
    dane_create_steps (example_world true LDNS_STATUS_OK example_net_cert) example_tlsas []
          3 0 0 1 example_net_cert [] true ["example".toList, "org".toList]
        = ([create_step.identity_checked (some false), create_step.name_mismatch_exit],
            none)
      ∧ main_addresses_loop (example_world true LDNS_STATUS_OK example_net_cert)
          example_options Mode.CREATE [] ["example".toList, "org".toList] 3 0 1
          ("192.0.2.2" :: ["192.0.2.1"]) (some example_tlsas) true
        = { trace := [Event.contacted "192.0.2.2"], exit_status := EXIT_FAILURE }
      ∧ (∀ name2 : DomainName,
          dane_create (example_world true LDNS_STATUS_OK example_net_cert) example_tlsas []
              3 0 0 1 example_net_cert [] false name2
            = dane_create_build (example_world true LDNS_STATUS_OK example_net_cert)
                example_tlsas [] 3 0 0 1 example_net_cert []) :=
  ⟨((C17_identity_precondition (example_world true LDNS_STATUS_OK example_net_cert)
      example_options example_tlsas [] 3 0 0 1 example_net_cert []
      ["example".toList, "org".toList] "192.0.2.2" ["192.0.2.1"] true).1 (by decide)).1
      (example_world true LDNS_STATUS_OK example_net_cert),
   ((C17_identity_precondition (example_world true LDNS_STATUS_OK example_net_cert)
      example_options example_tlsas [] 3 0 0 1 example_net_cert []
      ["example".toList, "org".toList] "192.0.2.2" ["192.0.2.1"] true).1
      (by decide)).2.2.2 (by decide) (by decide),
   (C17_identity_precondition (example_world true LDNS_STATUS_OK example_net_cert)
      example_options example_tlsas [] 3 0 0 1 example_net_cert []
      ["example".toList, "org".toList] "192.0.2.2" ["192.0.2.1"] true).2.2⟩

/-- A create run that succeeds ends with the second free of `tlsa_owner`. -/
theorem create_run_frees_owner_twice :
    main (example_world true LDNS_STATUS_OK example_org_cert) example_options
        ["example.org", "443", "3", "0", "1"]
      = { trace := [Event.contacted "192.0.2.1", Event.contacted "192.0.2.2",
                    Event.tlsas_printed
                      [{ owner := ["_443".toList, "_tcp".toList, "example".toList,
                                   "org".toList],
                         rr_type := LDNS_RR_TYPE_TLSA, usage := 3, selector := 0,
                         matching_type := 1, data := [18, 52] }]],
          exit_status := EXIT_SUCCESS,
          owner_freed_twice := true } := by
  decide

/-! ### Usage Policy Transformer, reapplied -/

theorem no_pkix_usage_usage (rr : ldns_rr) :
    (no_pkix_usage rr).usage ≠ 0 ∧ (no_pkix_usage rr).usage ≠ 1 := by
  unfold no_pkix_usage LDNS_TLSA_USAGE_CA_CONSTRAINT
    LDNS_TLSA_USAGE_SERVICE_CERTIFICATE_CONSTRAINT LDNS_TLSA_USAGE_TRUST_ANCHOR_ASSERTION
    LDNS_TLSA_USAGE_DOMAIN_ISSUED_CERTIFICATE
  by_cases h0 : rr.usage = 0
  · simp [h0]
  · by_cases h1 : rr.usage = 1
    · simp [h1]
    · simp [h0, h1]

theorem no_pkix_usage_fixed (rr : ldns_rr) (h0 : rr.usage ≠ 0) (h1 : rr.usage ≠ 1) :
    no_pkix_usage rr = rr := by
  unfold no_pkix_usage LDNS_TLSA_USAGE_CA_CONSTRAINT
    LDNS_TLSA_USAGE_SERVICE_CERTIFICATE_CONSTRAINT
  simp [h0, h1]

theorem no_pkix_usage_type (rr : ldns_rr) : (no_pkix_usage rr).rr_type = rr.rr_type := by
  unfold no_pkix_usage
  split
  · rfl
  · split <;> rfl

/-- C18: idempotence of the transformer.  For every record list `rs`, applying
`dane_no_pkix_transform` to its own output returns that output unchanged, and the output
holds no record with usage 0 (CA constraint) or 1 (Service certificate constraint). -/
theorem C18_transform_idempotent (rs : List ldns_rr) :
    dane_no_pkix_transform (dane_no_pkix_transform rs) = dane_no_pkix_transform rs
      ∧ ∀ rr ∈ dane_no_pkix_transform rs, rr.usage ≠ 0 ∧ rr.usage ≠ 1 := by
  induction rs with
  | nil => exact ⟨rfl, by simp [dane_no_pkix_transform]⟩
  | cons r rest ih =>
    by_cases ht : r.rr_type = LDNS_RR_TYPE_TLSA
    · have ht2 : (no_pkix_usage r).rr_type = LDNS_RR_TYPE_TLSA := by
        rw [no_pkix_usage_type, ht]
      have hu := no_pkix_usage_usage r
      constructor
      · simp only [dane_no_pkix_transform, ht, if_true, ht2, ih.1,
          no_pkix_usage_fixed _ hu.1 hu.2]
      · intro rr hrr
        simp only [dane_no_pkix_transform, ht, if_true, List.mem_cons] at hrr
        rcases hrr with rfl | hrr
        · exact hu
        · exact ih.2 rr hrr
    · simp only [dane_no_pkix_transform, ht, if_false]
      exact ih

/-! ### Configuration checks of `main` -/

/-- C15: missing trust store.  In create mode (five arguments) with a certificate usage
argument read as 0 (CA constraint) or 1 (Service certificate constraint), no CAfile, no
CApath and `-s` not set, `main` ends with `EXIT_FAILURE` and an empty trace: no endpoint is
contacted and no record is built or printed. -/
theorem C15_missing_trust_store (w : World) (o : Options)
    (name_str port_str arg2 arg3 arg4 : String)
    (hfile : o.CAfile = none) (hpath : o.CApath = none)
    (hskip : o.assume_pkix_validity = false)
    (husage : usage_within_range w.errno arg2.toList 3 = some 0
      ∨ usage_within_range w.errno arg2.toList 3 = some 1) :
    main w o [name_str, port_str, arg2, arg3, arg4]
      = { trace := [], exit_status := EXIT_FAILURE } := by
  have hsetup : main_create_setup w o arg2 arg3 arg4 = Except.error EXIT_FAILURE := by
    unfold main_create_setup
    rcases husage with hu | hu
    · rw [hu]
      simp only
      cases usage_within_range w.errno arg3.toList 1 with
      | none => rfl
      | some s =>
        cases usage_within_range w.errno arg4.toList 2 with
        | none => rfl
        | some m =>
          simp [hfile, hpath, hskip, LDNS_TLSA_USAGE_CA_CONSTRAINT]
    · rw [hu]
      simp only
      cases usage_within_range w.errno arg3.toList 1 with
      | none => rfl
      | some s =>
        cases usage_within_range w.errno arg4.toList 2 with
        | none => rfl
        | some m =>
          simp [hfile, hpath, hskip, LDNS_TLSA_USAGE_SERVICE_CERTIFICATE_CONSTRAINT]
  unfold main
  simp only
  cases ldns_dname_new_frm_str name_str with
  | none => rfl
  | some name =>
    simp only
    cases usage_within_range w.errno port_str.toList 65535 with
    | none => rfl
    | some port =>
      simp only [hsetup, ldns_err_eq]
      split <;> rfl

theorem C15_missing_trust_store_witness :
    main (example_world true LDNS_STATUS_OK example_org_cert) example_options
        ["example.org", "443", "0", "0", "1"]
      = { trace := [], exit_status := EXIT_FAILURE } :=
  C15_missing_trust_store (example_world true LDNS_STATUS_OK example_org_cert)
    example_options "example.org" "443" "0" "0" "1" (by decide) (by decide) (by decide)
    (Or.inl (by decide))

/-- The value that `usage_within_range` returns lies in `[0, max]`. -/
theorem usage_within_range_bounds (errno : Nat) (arg : List Char) (max v : Int)
    (h : usage_within_range errno arg max = some v) : 0 ≤ v ∧ v ≤ max := by
  unfold usage_within_range at h
  simp only at h
  split at h
  · cases h
  · rename_i hcond
    cases h
    constructor
    · by_contra hneg
      exact hcond (Or.inl (Or.inl (by omega)))
    · by_contra hneg
      exact hcond (Or.inl (Or.inr (by omega)))

/-- C16 (the code departs from the claim): with a `long` of 64 bits and an `int` of 32
bits, `usage_within_range` takes the arguments `4294967297` and `4294967296`, whose values
are outside `[0, 3]`, for 1 and 0: `strtol` returns them without an error and the
conversion to `int` drops the high bits before the range is checked.  With a CAfile given,
`main` then builds a record with certificate usage 1. -/
theorem C16_out_of_range_accepted :
    usage_within_range 0 "4294967297".toList 3 = some 1
      ∧ usage_within_range 0 "4294967296".toList 3 = some 0
      ∧ (strtol "4294967297".toList 0).value = 4294967297
      ∧ (strtol "4294967297".toList 0).errno = 0
      ∧ (main (example_world true LDNS_STATUS_OK example_org_cert)
            { example_options with CAfile := some "ca.pem" }
            ["example.org", "443", "4294967297", "0", "1"]).trace
          = [Event.contacted "192.0.2.1", Event.contacted "192.0.2.2",
             Event.tlsas_printed
               [{ owner := ["_443".toList, "_tcp".toList, "example".toList, "org".toList],
                  rr_type := LDNS_RR_TYPE_TLSA, usage := 1, selector := 0,
                  matching_type := 1, data := [18, 52] }]] := by
  decide

/-! ### TLSA lookup -/

/-- C19: insecure TLSA answers.  `dane_query` on an answer packet returns, with the status
INSECURE exactly when the answer holds a record of the type asked for, DNSSEC is enabled on
the resolver, the AD bit is clear and `insecure_is_ok` is false, and then it hands back no
list; otherwise the status is OK.  In verify mode `main`, given such an answer, prints the
warning and goes on to the TLS part with no TLSA list, where the loop over the addresses
runs when the TLS setup succeeds, no certificate file is given and addresses are given. -/
theorem C19_insecure_answer (w : World) (o : Options) (name_str port_str : String)
    (name : DomainName) (port : Int) (p : ldns_pkt)
    (hname : ldns_dname_new_frm_str name_str = some name)
    (hport : usage_within_range w.errno port_str.toList 65535 = some port)
    (howner : (w.ldns_dane_create_tlsa_owner name port).1 = LDNS_STATUS_OK)
    (hres : w.dane_setup_resolver = LDNS_STATUS_OK)
    (hans : w.tlsa_answer = some p)
    (hrecords : ldns_pkt_rr_list_by_type p LDNS_RR_TYPE_TLSA ≠ [])
    (hdnssec : w.resolver_dnssec = true)
    (had : p.ad = false) :
    (∀ (q : ldns_pkt) (dnssec : Bool) (t : Nat) (insecure_is_ok : Bool),
        ∃ s rrs, dane_query (some q) dnssec t insecure_is_ok = some (s, rrs)
          ∧ (s = LDNS_STATUS_DANE_INSECURE ↔
              (ldns_pkt_rr_list_by_type q t ≠ [] ∧ dnssec = true ∧ q.ad = false
                ∧ insecure_is_ok = false))
          ∧ (s = LDNS_STATUS_DANE_INSECURE → rrs = none)
          ∧ (s ≠ LDNS_STATUS_DANE_INSECURE →
              s = LDNS_STATUS_OK ∧ rrs = some (ldns_pkt_rr_list_by_type q t)))
      ∧ main w o [name_str, port_str]
          = Run.after [Event.warning_insecure]
              (main_tls w o Mode.VERIFY (w.ldns_dane_create_tlsa_owner name port).2 name
                666 666 666 none)
      ∧ (w.ssl_setup_ok = true → o.cert_file = none → o.addresses ≠ [] →
          main_tls w o Mode.VERIFY (w.ldns_dane_create_tlsa_owner name port).2 name
              666 666 666 none
            = main_addresses_loop w o Mode.VERIFY
                (w.ldns_dane_create_tlsa_owner name port).2 name 666 666 666
                o.addresses none true) := by
  refine ⟨?_, ?_, ?_⟩
  · intro q dnssec t ok
    by_cases hc : ldns_pkt_rr_list_by_type q t ≠ [] ∧ dnssec = true ∧ q.ad = false
        ∧ ok = false
    · obtain ⟨h1, h2, h3, h4⟩ := hc
      refine ⟨LDNS_STATUS_DANE_INSECURE, none, ?_, ?_, ?_, ?_⟩
      · have hlen : 0 < (ldns_pkt_rr_list_by_type q t).length :=
          List.length_pos.2 h1
        simp [dane_query, ldns_rr_list_rr_count, hlen, h2, h3, h4]
      · simp [h1, h2, h3, h4]
      · intro _; rfl
      · intro h; exact absurd rfl h
    · refine ⟨LDNS_STATUS_OK, some (ldns_pkt_rr_list_by_type q t), ?_, ?_, ?_, ?_⟩
      · have hc2 : ¬ (ldns_rr_list_rr_count (some (ldns_pkt_rr_list_by_type q t)) > 0
            ∧ dnssec = true ∧ ¬ q.ad = true ∧ ¬ ok = true) := by
          intro ⟨a1, a2, a3, a4⟩
          apply hc
          refine ⟨?_, a2, by simpa using a3, by simpa using a4⟩
          intro hnil
          simp [ldns_rr_list_rr_count, hnil] at a1
        simp only [dane_query, hc2, if_false]
      · constructor
        · intro h
          exact absurd h (by decide)
        · intro h
          exact absurd h hc
      · intro h
        exact absurd h (by decide)
      · intro _
        exact ⟨rfl, rfl⟩
  · have hlen : 0 < (ldns_pkt_rr_list_by_type p LDNS_RR_TYPE_TLSA).length :=
      List.length_pos.2 hrecords
    have hq : dane_query w.tlsa_answer w.resolver_dnssec LDNS_RR_TYPE_TLSA false
        = some (LDNS_STATUS_DANE_INSECURE, none) := by
      simp [dane_query, hans, ldns_rr_list_rr_count, hlen, hdnssec, had]
    have hl : main_verify_lookup w o = ([Event.warning_insecure], Except.ok none) := by
      simp [main_verify_lookup, hres, hq]
    have hport2 : usage_within_range w.errno port_str.data 65535 = some port := hport
    simp [main, hname, hport2, howner, hl]
  · intro hssl hfile haddr
    have hlen : o.addresses.length ≠ 0 := by
      intro h
      exact haddr (List.length_eq_zero.1 h)
    simp [main_tls, hssl, hfile, hlen]

theorem C19_insecure_answer_witness :
    main (example_world false LDNS_STATUS_OK example_org_cert) example_options
          ["example.org", "443"]
        = Run.after [Event.warning_insecure]
            (main_tls (example_world false LDNS_STATUS_OK example_org_cert) example_options
              Mode.VERIFY
              ((example_world false LDNS_STATUS_OK
                  example_org_cert).ldns_dane_create_tlsa_owner
                ["example".toList, "org".toList] 443).2
              ["example".toList, "org".toList] 666 666 666 none)
      ∧ (main (example_world false LDNS_STATUS_OK example_org_cert) example_options
          ["example.org", "443"]).trace
        = [Event.warning_insecure,
           Event.contacted "192.0.2.1",
           Event.reported (some "192.0.2.1") verify_report.validated,
           Event.contacted "192.0.2.2",
           Event.reported (some "192.0.2.2") verify_report.validated] :=
  ⟨(C19_insecure_answer (example_world false LDNS_STATUS_OK example_org_cert)
      example_options "example.org" "443" ["example".toList, "org".toList] 443
      { answer := example_tlsas, ad := false }
      (by decide) (by decide) (by decide) (by decide) (by decide) (by decide) (by decide)
      (by decide)).2.1,
    by decide⟩

/-! ### Label Matcher: soundness for one wildcard -/

theorem label_glob_append_inv (pre w s : Label) (hpre : '*' ∉ pre)
    (h : label_glob (pre ++ w) s = true) :
    ∃ rest, s = pre ++ rest ∧ label_glob w rest = true := by
  induction pre generalizing s with
  | nil => exact ⟨s, rfl, h⟩
  | cons c pre ih =>
    have hc : c ≠ '*' := fun e => hpre (by simp [e])
    have hp : '*' ∉ pre := fun hm => hpre (List.mem_cons_of_mem _ hm)
    cases s with
    | nil =>
      rw [List.cons_append, label_glob_lit_nil c _ hc] at h
      cases h
    | cons d s1 =>
      rw [List.cons_append, label_glob_lit_cons c d _ _ hc] at h
      simp only [Bool.and_eq_true, decide_eq_true_eq] at h
      obtain ⟨rest, h1, h2⟩ := ih s1 hp h.2
      exact ⟨rest, by rw [h.1, h1]; rfl, h2⟩

theorem any_tail_inv (p : Label → Bool) (l : Label) (h : any_tail p l = true) :
    ∃ m t, l = m ++ t ∧ p t = true := by
  induction l with
  | nil => simp [any_tail] at h
  | cons d l ih =>
    simp only [any_tail, Bool.or_eq_true] at h
    rcases h with h | h
    · exact ⟨[], d :: l, rfl, h⟩
    · obtain ⟨m, t, h1, h2⟩ := ih h
      exact ⟨d :: m, t, by rw [h1]; rfl, h2⟩

/-- C20: soundness for single-wildcard patterns.  If `dane_wildcard_label_cmp` accepts the
subject `s` for the pattern `pre ++ "*" ++ suf` with `pre` and `suf` free of `*`, then `s`
is `pre ++ mid ++ suf` for some `mid`: `pre` starts `s`, `suf` ends `s`, and `s` has at
least `length pre + length suf` octets. -/
theorem C20_single_wildcard_sound (pre suf s : Label)
    (hpre : '*' ∉ pre) (hsuf : '*' ∉ suf)
    (h : dane_wildcard_label_cmp (pre ++ '*' :: suf) s = true) :
    (∃ mid, s = pre ++ mid ++ suf)
      ∧ pre <+: s ∧ suf <:+ s ∧ pre.length + suf.length ≤ s.length := by
  rw [dane_wildcard_label_cmp_eq] at h
  obtain ⟨rest, hs, hrest⟩ := label_glob_append_inv pre _ s hpre h
  have hmid : ∃ mid, rest = mid ++ suf := by
    cases suf with
    | nil => exact ⟨rest, by simp⟩
    | cons c1 suf1 =>
      rw [label_glob_star_cons] at hrest
      obtain ⟨m, t, h1, h2⟩ := any_tail_inv _ rest hrest
      simp only [Bool.and_eq_true] at h2
      have ht := (label_glob_literal_iff (c1 :: suf1) t hsuf).1 h2.2
      exact ⟨m, by rw [h1, ht]⟩
  obtain ⟨mid, hmid⟩ := hmid
  subst hmid
  subst hs
  refine ⟨⟨mid, by simp⟩, ⟨mid ++ suf, rfl⟩, ⟨pre ++ mid, by simp⟩, ?_⟩
  simp only [List.length_append]
  omega

theorem C20_single_wildcard_sound_witness :
    (∃ mid, "abbc".toList = "a".toList ++ mid ++ "c".toList)
      ∧ "a".toList <+: "abbc".toList ∧ "c".toList <:+ "abbc".toList
      ∧ "a".toList.length + "c".toList.length ≤ "abbc".toList.length :=
  C20_single_wildcard_sound "a".toList "c".toList "abbc".toList (by decide) (by decide)
    (by decide)


/-! ### Label Matcher: termination -/

/-- The do-while loop is its body, then the test of its condition, then the loop again or
the final `return`. -/
theorem do_while_unfold (rec : Label → Label → Option Bool) (k : Nat) (w l : Label) :
    do_while rec (k + 1) w l =
      match do_while_body rec w l with
      | none => none
      | some (Sum.inl b) => some b
      | some (Sum.inr p) =>
        if do_while_cond p.1 p.2 = true then do_while rec k p.1 p.2
        else some (p.1.length == 0 && p.2.length == 0) := by
  rw [do_while, do_while_body]
  simp only [do_while_cond, decide_eq_true_eq]
  split <;> rfl

theorem skip_literal_length_subject (w l : Label) :
    (skip_literal w l).2.length ≤ l.length := by
  induction w generalizing l with
  | nil => cases l <;> simp [skip_literal]
  | cons c w ih =>
    cases l with
    | nil => simp [skip_literal]
    | cons d l =>
      by_cases h : c ≠ '*' ∧ c = d
      · obtain ⟨h1, h2⟩ := h
        subst h2
        simp only [skip_literal, h1, ne_eq, not_false_eq_true, and_self, if_true,
          List.length_cons]
        exact Nat.le_succ_of_le (ih l)
      · simp only [skip_literal, h, if_false, List.length_cons, le_refl]

/-- When the skip loop starts at a literal octet and stops at a wildcard, it has made at
least one iteration: both remaining lengths are smaller. -/
theorem skip_literal_progress (w l : Label) (hw : w.head? ≠ some '*')
    (hstop : (skip_literal w l).1.head? = some '*') :
    (skip_literal w l).1.length < w.length ∧ (skip_literal w l).2.length < l.length := by
  cases w with
  | nil => cases l <;> simp [skip_literal] at hstop
  | cons c w1 =>
    cases l with
    | nil => exact absurd hstop (by simpa [skip_literal] using hw)
    | cons d l1 =>
      by_cases h : c ≠ '*' ∧ c = d
      · obtain ⟨h1, h2⟩ := h
        subst h2
        simp only [skip_literal, h1, ne_eq, not_false_eq_true, and_self, if_true,
          List.length_cons]
        exact ⟨Nat.lt_succ_of_le (skip_literal_length w1 l1),
          Nat.lt_succ_of_le (skip_literal_length_subject w1 l1)⟩
      · simp only [skip_literal, h, if_false] at hstop
        exact absurd hstop (by simpa using hw)

/-- An iteration of the do-while loop that is followed by another iteration has made both
the remaining pattern and the remaining subject shorter. -/
theorem do_while_body_decreases (rec : Label → Label → Option Bool) (w l w2 l2 : Label)
    (hbody : do_while_body rec w l = some (Sum.inr (w2, l2)))
    (hcond : do_while_cond w2 l2 = true) :
    w2.length < w.length ∧ l2.length < l.length := by
  simp only [do_while_cond, decide_eq_true_eq] at hcond
  obtain ⟨_, hhead, hmore⟩ := hcond
  by_cases hstar : w.head? = some '*'
  · -- the wildcard branch leaves the subject empty, so the condition fails
    exfalso
    by_cases h1 : w.length = 1
    · simp [do_while_body, hstar, h1] at hbody
    · cases hs : star_loop (rec w.tail) w.tail.head? l with
      | none =>
        simp only [do_while_body, hstar, h1, hs, if_true, if_false] at hbody
        cases hbody
      | some b =>
        cases b with
        | true =>
          simp only [do_while_body, hstar, h1, hs, if_true, if_false] at hbody
          cases hbody
        | false =>
          simp only [do_while_body, hstar, h1, hs, if_true, if_false, skip_literal_nil,
            Option.some.injEq, Sum.inr.injEq, Prod.mk.injEq] at hbody
          obtain ⟨e1, e2⟩ := hbody
          subst e1
          subst e2
          rcases hmore with hm | hm
          · simp at hm
          · exact h1 hm
  · simp only [do_while_body, hstar, if_false, Option.some.injEq, Sum.inr.injEq] at hbody
    have hp := skip_literal_progress w l hstar (by rw [hbody]; exact hhead)
    rw [hbody] at hp
    exact hp

/-- The body of the do-while loop consults the recursive call only on patterns that are
shorter than the current one. -/
theorem do_while_body_congr (rec1 rec2 : Label → Label → Option Bool) (w l : Label)
    (h : ∀ w1 s, w1.length < w.length → rec1 w1 s = rec2 w1 s) :
    do_while_body rec1 w l = do_while_body rec2 w l := by
  cases w with
  | nil => simp [do_while_body]
  | cons c w1 =>
    have hrec : rec1 w1 = rec2 w1 := funext (fun s => h w1 s (by simp))
    simp only [do_while_body, List.tail_cons, hrec]

/-- The do-while loop consults the recursive call only on patterns that are shorter than
the pattern it was started with. -/
theorem do_while_congr (rec1 rec2 : Label → Label → Option Bool) (k : Nat) (w l : Label)
    (h : ∀ w1 s, w1.length < w.length → rec1 w1 s = rec2 w1 s) :
    do_while rec1 k w l = do_while rec2 k w l := by
  induction k generalizing w l with
  | zero => rfl
  | succ k ih =>
    rw [do_while_unfold, do_while_unfold, do_while_body_congr rec1 rec2 w l h]
    cases hb : do_while_body rec2 w l with
    | none => rfl
    | some r =>
      cases r with
      | inl b => rfl
      | inr p =>
        simp only
        by_cases hc : do_while_cond p.1 p.2 = true
        · have hlt := (do_while_body_decreases rec2 w l p.1 p.2 hb hc).1
          rw [if_pos hc, if_pos hc]
          exact ih p.1 p.2 (fun w1 s hw1 => h w1 s (Nat.lt_trans hw1 hlt))
        · rw [if_neg hc, if_neg hc]

/-- C21 (as stated, refuted): the claim says every iteration of the loops makes the
remaining subject or the remaining pattern shorter.  For the pattern `a` and the subject
`b` the body of the do-while loop runs once and leaves both as they were (the loop then
ends and the function returns false); the same holds for the pattern `*a` and the empty
subject. -/
theorem C21_idle_iteration_counterexample :
    do_while_body (dane_wildcard_label_cmp_fuel 2) "a".toList "b".toList
        = some (Sum.inr ("a".toList, "b".toList))
      ∧ do_while_cond "a".toList "b".toList = false
      ∧ dane_wildcard_label_cmp_fuel 3 "a".toList "b".toList = some false
      ∧ do_while_body (dane_wildcard_label_cmp_fuel 3) "*a".toList "".toList
        = some (Sum.inr ("*a".toList, "".toList))
      ∧ do_while_cond "*a".toList "".toList = false
      ∧ dane_wildcard_label_cmp_fuel 4 "*a".toList "".toList = some false := by
  decide

/-- C21 (amended): termination of the Label Matcher.  For every pattern `w` and subject
`l`, with any contents and any number of wildcards, `dane_wildcard_label_cmp` returns
within the fuel `iw + 2` and more fuel does not change the result; the loop consults the
recursive call only on patterns strictly shorter than `w`; an iteration of the inner
`while (il > 0)` loop that does not return goes on with a subject one octet shorter; an
iteration of the skip loop goes on with the pattern and the subject one octet shorter; and
an iteration of the do-while loop that is followed by another iteration has made the
remaining pattern and the remaining subject strictly shorter. -/
theorem C21_termination (w l : Label) :
    (∀ n, w.length + 2 ≤ n →
        dane_wildcard_label_cmp_fuel n w l = some (dane_wildcard_label_cmp w l))
      ∧ (∀ (rec1 rec2 : Label → Label → Option Bool) (k : Nat),
          (∀ w1 s, w1.length < w.length → rec1 w1 s = rec2 w1 s) →
          do_while rec1 k w l = do_while rec2 k w l)
      ∧ (∀ (rec : Label → Option Bool) (w1 : Option Char) (d : Char),
          star_loop rec w1 (d :: l) = none ∨ star_loop rec w1 (d :: l) = some true
            ∨ (star_loop rec w1 (d :: l) = star_loop rec w1 l
                ∧ l.length < (d :: l).length))
      ∧ (skip_literal w l = (w, l)
          ∨ ∃ c w1 d l1, w = c :: w1 ∧ l = d :: l1
              ∧ skip_literal w l = skip_literal w1 l1
              ∧ w1.length < w.length ∧ l1.length < l.length)
      ∧ (∀ (rec : Label → Label → Option Bool) (w2 l2 : Label),
          do_while_body rec w l = some (Sum.inr (w2, l2)) →
          do_while_cond w2 l2 = true →
          w2.length < w.length ∧ l2.length < l.length) := by
  refine ⟨fun n hn => dane_wildcard_label_cmp_fuel_total n w l hn,
    fun rec1 rec2 k h => do_while_congr rec1 rec2 k w l h, ?_, ?_,
    fun rec w2 l2 hb hc => do_while_body_decreases rec w l w2 l2 hb hc⟩
  · intro rec w1 d
    by_cases hd : w1 = some d
    · cases hr : rec (d :: l) with
      | none => exact Or.inl (by simp [star_loop, hd, hr])
      | some b =>
        cases b with
        | true => exact Or.inr (Or.inl (by simp [star_loop, hd, hr]))
        | false => exact Or.inr (Or.inr ⟨by simp [star_loop, hd, hr], by simp⟩)
    · exact Or.inr (Or.inr ⟨by simp [star_loop, hd], by simp⟩)
  · cases w with
    | nil => exact Or.inl (by cases l <;> rfl)
    | cons c w1 =>
      cases l with
      | nil => exact Or.inl rfl
      | cons d l1 =>
        by_cases h : c ≠ '*' ∧ c = d
        · refine Or.inr ⟨c, w1, d, l1, rfl, rfl, ?_, by simp, by simp⟩
          rw [skip_literal, if_pos h]
        · exact Or.inl (by simp only [skip_literal, h, if_false])

theorem C21_termination_witness :
    dane_wildcard_label_cmp_fuel 9 "a*b*c".toList "aXbYc".toList
        = some (dane_wildcard_label_cmp "a*b*c".toList "aXbYc".toList)
      ∧ dane_wildcard_label_cmp_fuel 9 "a*b*c".toList "aXbYc".toList = some true :=
  ⟨(C21_termination "a*b*c".toList "aXbYc".toList).1 9 (by decide), by decide⟩

end LdnsDane
